import Mathlib

/-!
# oneinfra: node join protocol and WireGuard mesh configuration

A shallow embedding of

* `internal/pkg/component/components/wireguard.go` (ingress side),
* `internal/pkg/node/wireguard.go` (node side),
* `internal/pkg/node/join.go` (join protocol),

together with the parts of the Go standard library these files call
(`net`, `text/template`, `crypto/sha1`, `encoding/base64`, `fmt`, `strconv`).

Conventions: a Go `string` is a Lean `String`; parsers work on its list of
characters; a Go `byte` is a `Nat` below 256; a Go `error` is `GoError`; a call
that may fail returns `Except GoError _`; a function that can also stop with a
run-time panic returns `Outcome _`.
-/

set_option maxRecDepth 200000

/-! ## Go values -/

/-- A Go `error` value: its message and, for errors of the cluster API, the
status reason (`metav1.StatusReason`), empty otherwise. -/
structure GoError where
  message : String
  reason : String := ""
deriving DecidableEq, Repr

/-- Go `errors.New`. -/
def errors.New (message : String) : GoError := { message := message }

/-- The three ways a Go call ends: a value, a returned error, a run-time panic. -/
inductive Outcome (α : Type) where
  | ok (a : α)
  | error (e : GoError)
  | panic (message : String)
deriving DecidableEq, Repr

/-- Go `strconv.Itoa`. -/
def strconv.Itoa (i : Int) : String :=
  match i with
  | Int.ofNat n => Nat.repr n
  | Int.negSucc n => "-" ++ Nat.repr (n + 1)

/-- The bytes of a Go string (`[]byte(s)`): its UTF-8 encoding. -/
def stringBytes (s : String) : List Nat :=
  s.toList.flatMap (fun c => (String.utf8EncodeChar c).map UInt8.toNat)

/-- Digits used by `%x` and by `net`. -/
def hexDigit (n : Nat) : Char := "0123456789abcdef".toList.getD n '0'

/-- Go `fmt.Sprintf("%x", b)` for a byte array or slice: two lowercase
hexadecimal digits per byte. -/
def fmtHexBytes (bs : List Nat) : List Char :=
  bs.flatMap (fun b => [hexDigit (b / 16 % 16), hexDigit (b % 16)])

/-- The Go slice expression `s[lo:hi]` on a string: the characters from `lo`
up to `hi`, or a panic when the bounds are out of range. -/
def sliceString (s : List Char) (lo hi : Nat) : Outcome (List Char) :=
  if lo ≤ hi ∧ hi ≤ s.length then Outcome.ok ((s.take hi).drop lo)
  else Outcome.panic "slice bounds out of range"

/-! ## Package `net` (Go standard library, `net/ip.go`, `net/parse.go`)

The text parsers follow the library as it was when the repository was written
(Go 1.14): `ParseCIDR` tries `parseIPv4`, then `parseIPv6`, and in both cases
returns the address in its 16-byte form. -/

namespace net

def IPv4len : Nat := 4

def IPv6len : Nat := 16

/-- A `net.IP`: a byte slice; `nil` is the empty list. -/
abbrev IP := List Nat

/-- A `net.IPMask`. -/
abbrev IPMask := List Nat

/-- A `net.IPNet`. -/
structure IPNet where
  IP : IP
  Mask : IPMask
deriving DecidableEq, Repr

/-- Bigger than we need, not too big to worry about overflow. -/
def big : Nat := 0xFFFFFF

/-- The loop of `dtoi`: value so far, characters consumed, and whether the
loop ended without overflow. -/
def dtoiLoop : List Char → Nat → Nat → Nat × Nat × Bool
  | [], n, i => (n, i, true)
  | c :: cs, n, i =>
    if '0' ≤ c ∧ c ≤ '9' then
      if n * 10 + (c.toNat - '0'.toNat) ≥ big then (big, i, false)
      else dtoiLoop cs (n * 10 + (c.toNat - '0'.toNat)) (i + 1)
    else (n, i, true)

/-- Go `dtoi`: decimal to integer; returns number, characters consumed, success. -/
def dtoi (s : List Char) : Nat × Nat × Bool :=
  match dtoiLoop s 0 0 with
  | (n, i, false) => (n, i, false)
  | (n, i, true) => if i = 0 then (0, 0, false) else (n, i, true)

/-- The value of a hexadecimal digit, if the character is one. -/
def hexVal (c : Char) : Option Nat :=
  if '0' ≤ c ∧ c ≤ '9' then some (c.toNat - '0'.toNat)
  else if 'a' ≤ c ∧ c ≤ 'f' then some (c.toNat - 'a'.toNat + 10)
  else if 'A' ≤ c ∧ c ≤ 'F' then some (c.toNat - 'A'.toNat + 10)
  else none

/-- The loop of `xtoi`. -/
def xtoiLoop : List Char → Nat → Nat → Nat × Nat × Bool
  | [], n, i => (n, i, true)
  | c :: cs, n, i =>
    match hexVal c with
    | none => (n, i, true)
    | some v =>
      if n * 16 + v ≥ big then (0, i, false)
      else xtoiLoop cs (n * 16 + v) (i + 1)

/-- Go `xtoi`: hexadecimal to integer; returns number, characters consumed,
success. -/
def xtoi (s : List Char) : Nat × Nat × Bool :=
  match xtoiLoop s 0 0 with
  | (n, i, false) => (n, i, false)
  | (n, i, true) => if i = 0 then (0, i, false) else (n, i, true)

def v4InV6Prefix : List Nat := [0, 0, 0, 0, 0, 0, 0, 0, 0, 0, 0xff, 0xff]

/-- Go `net.IPv4(a, b, c, d)`: the 16-byte form of the IPv4 address. -/
def IPv4 (a b c d : Nat) : IP := v4InV6Prefix ++ [a, b, c, d]

/-- The loop of `parseIPv4`: `k` octets remain to be read, `first` tells the
first iteration (`i == 0`, no dot expected). Returns the octets read and the
rest of the string. -/
def parseIPv4Octets : Nat → Bool → List Char → Option (List Nat × List Char)
  | 0, _, s => some ([], s)
  | k + 1, first, s =>
    if s.isEmpty then none
    else
      match (if first then some s
             else match s with
               | '.' :: t => some t
               | _ => none) with
      | none => none
      | some s1 =>
        match dtoi s1 with
        | (n, c, ok) =>
          if !ok || n > 0xFF then none
          else
            match parseIPv4Octets k false (s1.drop c) with
            | none => none
            | some (ps, rest) => some (n % 256 :: ps, rest)

/-- Go `parseIPv4`: parse an IPv4 address (d.d.d.d); `none` is Go's `nil`. -/
def parseIPv4 (s : List Char) : Option IP :=
  match parseIPv4Octets 4 true s with
  | some ([a, b, c, d], []) => some (IPv4 a b c d)
  | _ => none

/-- The main loop of `parseIPv6` ("parsing hex numbers followed by colon").
State: the address bytes, the write position `i`, the rest of the string and
the position of the ellipsis (`none` is Go's `-1`). `none` is `return nil`;
`some` is the state when the loop is left (by `break` or by its condition). -/
def parseIPv6Loop : Nat → IP → Nat → List Char → Option Nat →
    Option (IP × Nat × List Char × Option Nat)
  | 0, ip, i, s, e => some (ip, i, s, e)
  | k + 1, ip, i, s, e =>
    if ¬ (i < IPv6len) then some (ip, i, s, e)
    else
      match xtoi s with
      | (n, c, ok) =>
        if !ok || n > 0xFFFF then none
        else if c < s.length && s.getD c ' ' == '.' then
          if e.isNone && i != IPv6len - IPv4len then none
          else if i + IPv4len > IPv6len then none
          else
            match parseIPv4 s with
            | none => none
            | some ip4 =>
              some ((((ip.set i (ip4.getD 12 0)).set (i + 1) (ip4.getD 13 0)).set
                (i + 2) (ip4.getD 14 0)).set (i + 3) (ip4.getD 15 0), i + IPv4len, [], e)
        else
          let ip1 := (ip.set i (n >>> 8 % 256)).set (i + 1) (n % 256)
          let s1 := s.drop c
          if s1.isEmpty then some (ip1, i + 2, s1, e)
          else if s1.headD ' ' != ':' || s1.length == 1 then none
          else
            let s2 := s1.drop 1
            if s2.headD ' ' == ':' then
              if e.isSome then none
              else
                let s3 := s2.drop 1
                if s3.isEmpty then some (ip1, i + 2, s3, some (i + 2))
                else parseIPv6Loop k ip1 (i + 2) s3 (some (i + 2))
            else parseIPv6Loop k ip1 (i + 2) s2 e

/-- The two loops of `parseIPv6` that expand the ellipsis: move the bytes
`ip[ellipsis..i)` to the end, then zero the gap. -/
def expandEllipsis (ip : IP) (i ellipsis : Nat) : IP :=
  let n := IPv6len - i
  let moved := ((List.range (i - ellipsis)).map (fun t => i - 1 - t)).foldl
    (fun (p : IP) j => p.set (j + n) (p.getD j 0)) ip
  ((List.range n).map (fun t => ellipsis + n - 1 - t)).foldl
    (fun (p : IP) j => p.set j 0) moved

/-- Go `parseIPv6`: parse a literal IPv6 address (RFC 4291, RFC 5952). -/
def parseIPv6 (s : List Char) : Option IP :=
  let ip0 : IP := List.replicate IPv6len 0
  -- might have leading ellipsis
  let start : Option Nat × List Char :=
    match s with
    | ':' :: ':' :: t => (some 0, t)
    | _ => (none, s)
  -- might be only ellipsis
  if start.1.isSome && start.2.isEmpty then some ip0
  else
    match parseIPv6Loop 9 ip0 0 start.2 start.1 with
    | none => none
    | some (ip, i, s1, e) =>
      -- must have used entire string
      if !s1.isEmpty then none
      else if i < IPv6len then
        -- if didn't parse enough, expand ellipsis
        match e with
        | none => none
        | some el => some (expandEllipsis ip i el)
      else if e.isSome then none
      else some ip

/-- Go `net.CIDRMask(ones, bits)`. -/
def CIDRMask (ones bits : Nat) : IPMask :=
  if bits ≠ 8 * IPv4len ∧ bits ≠ 8 * IPv6len then []
  else if ones > bits then []
  else
    (List.range (bits / 8)).map (fun i =>
      if ones - 8 * i ≥ 8 then 0xff
      else (0xff - 0xff >>> (ones - 8 * i)) % 256)

def allFF (b : List Nat) : Bool := b.all (fun c => c == 0xff)

def isZeros (p : List Nat) : Bool := p.all (fun c => c == 0)

/-- Go `IP.To4`: the 4-byte form of an IPv4 address, `none` (Go's `nil`) when
the address is not an IPv4 address. -/
def IP.To4 (ip : IP) : Option IP :=
  if ip.length = IPv4len then some ip
  else if ip.length = IPv6len ∧ isZeros (ip.take 10) ∧ ip.getD 10 0 = 0xff ∧ ip.getD 11 0 = 0xff then
    some ((ip.take 16).drop 12)
  else none

/-- Go `IP.Mask`: the result of masking the address with `mask`; `[]` is `nil`. -/
def IP.Mask (ip : IP) (mask : IPMask) : IP :=
  let mask1 := if mask.length = IPv6len ∧ ip.length = IPv4len ∧ allFF (mask.take 12)
    then mask.drop 12 else mask
  let ip1 := if mask1.length = IPv4len ∧ ip.length = IPv6len ∧ ip.take 12 = v4InV6Prefix
    then ip.drop 12 else ip
  if ip1.length ≠ mask1.length then []
  else List.zipWith (fun a b => a &&& b) ip1 mask1

/-- Go `net.ParseCIDR`: the address and the network of a CIDR notation string
such as "192.0.2.1/24" or "2001:db8::/32". -/
def ParseCIDR (s : String) : Except GoError (IP × IPNet) :=
  let cs := s.toList
  let err : GoError := { message := "invalid CIDR address: " ++ s }
  match cs.indexOf? '/' with
  | none => Except.error err
  | some i =>
    let addr := cs.take i
    let mask := cs.drop (i + 1)
    let v4 := parseIPv4 addr
    let iplen := if v4.isSome then IPv4len else IPv6len
    let ip := if v4.isSome then v4 else parseIPv6 addr
    match dtoi mask with
    | (n, j, ok) =>
      match ip with
      | none => Except.error err
      | some ip =>
        if !ok || j != mask.length || n > 8 * iplen then Except.error err
        else
          let m := CIDRMask n (8 * iplen)
          Except.ok (ip, { IP := IP.Mask ip m, Mask := m })

/-- Go `simpleMaskLength`: the number of leading ones if the mask is a run of
ones followed by zeros, `none` (Go's `-1`) otherwise. -/
def simpleMaskLength : IPMask → Option Nat
  | [] => some 0
  | v :: rest =>
    if v = 0xff then (simpleMaskLength rest).map (fun n => n + 8)
    else
      let ones := (List.range 8).takeWhile (fun k => (v <<< k) % 256 &&& 0x80 != 0)
      if (v <<< ones.length) % 256 ≠ 0 then none
      else if rest.all (fun b => b == 0) then some ones.length
      else none

/-- Go `networkNumberAndMask`; `none` is the pair `nil, nil`. -/
def networkNumberAndMask (n : IPNet) : Option (IP × IPMask) :=
  let ip? : Option IP :=
    match IP.To4 n.IP with
    | some p4 => some p4
    | none => if n.IP.length ≠ IPv6len then none else some n.IP
  match ip? with
  | none => none
  | some ip =>
    if n.Mask.length = IPv4len then
      if ip.length ≠ IPv4len then none else some (ip, n.Mask)
    else if n.Mask.length = IPv6len then
      if ip.length = IPv4len then some (ip, n.Mask.drop 12) else some (ip, n.Mask)
    else none

/-- Go `appendHex`: the hexadecimal digits of a 16-bit group, without leading
zeros. -/
def appendHex (i : Nat) : List Char :=
  if i = 0 then ['0']
  else
    ((List.range 8).map (fun t => 7 - t)).flatMap (fun j =>
      if i >>> (j * 4) > 0 then [hexDigit (i >>> (j * 4) &&& 0xf)] else [])

/-- Go `hexString`. -/
def hexString (b : List Nat) : List Char :=
  b.flatMap (fun tn => [hexDigit (tn >>> 4), hexDigit (tn &&& 0xf)])

/-- The first loop of `IP.String`: find the longest run of zero groups.
State `(e0, e1)`, `none` standing for `(-1, -1)`; `i` is the loop index. -/
def longestZeroRun : Nat → IP → Nat → Option (Nat × Nat) → Option (Nat × Nat)
  | 0, _, _, e => e
  | k + 1, p, i, e =>
    if ¬ (i < IPv6len) then e
    else
      let zs := ((List.range ((IPv6len - i) / 2)).takeWhile
        (fun t => p.getD (i + 2 * t) 0 == 0 && p.getD (i + 2 * t + 1) 0 == 0)).length
      let j := i + 2 * zs
      let len := match e with
        | none => 0
        | some (e0, e1) => e1 - e0
      if j > i ∧ j - i > len then longestZeroRun k p (j + 2) (some (i, j))
      else longestZeroRun k p (i + 2) e

/-- The second loop of `IP.String`: print the groups, with "::" in place of
the run `[e0, e1)`. -/
def printGroups : Nat → IP → Nat → Option (Nat × Nat) → List Char → List Char
  | 0, _, _, _, b => b
  | k + 1, p, i, e, b =>
    if ¬ (i < IPv6len) then b
    else if e.map Prod.fst = some i then
      let e1 := (e.map Prod.snd).getD 0
      if e1 ≥ IPv6len then b ++ [':', ':']
      else printGroups k p (e1 + 2) e
        (b ++ [':', ':'] ++ appendHex (p.getD e1 0 * 256 + p.getD (e1 + 1) 0))
    else
      printGroups k p (i + 2) e
        ((if i > 0 then b ++ [':'] else b) ++ appendHex (p.getD i 0 * 256 + p.getD (i + 1) 0))

/-- Go `IP.String`: dotted decimal for an IPv4 address, RFC 5952 text for an
IPv6 address. -/
def IP.String (ip : IP) : String :=
  if ip.length = 0 then "<nil>"
  else
    match IP.To4 ip with
    | some [a, b, c, d] =>
      Nat.repr a ++ "." ++ Nat.repr b ++ "." ++ Nat.repr c ++ "." ++ Nat.repr d
    | _ =>
      if ip.length ≠ IPv6len then "?" ++ String.mk (hexString ip)
      else
        let e := match longestZeroRun 9 ip 0 none with
          | some (e0, e1) => if e1 - e0 ≤ 2 then none else some (e0, e1)
          | none => none
        String.mk (printGroups 9 ip 0 e [])

/-- Go `IPMask.String`: the hexadecimal form of the mask. -/
def IPMask.String (m : IPMask) : String :=
  if m.length = 0 then "<nil>" else String.mk (hexString m)

/-- Go `IPNet.String`: the CIDR notation of the network, such as
"192.0.2.0/24". -/
def IPNet.String (n : IPNet) : String :=
  match networkNumberAndMask n with
  | none => "<nil>"
  | some (nn, m) =>
    match simpleMaskLength m with
    | none => IP.String nn ++ "/" ++ IPMask.String m
    | some l => IP.String nn ++ "/" ++ Nat.repr l

end net

/-! ## Package `text/template` (Go standard library)

The fragment of the template language the two WireGuard templates use: text,
the trim markers `{{- ` and ` -}}`, field actions `{{ .F }}`, and one level of
`{{ range $v := .L }} ... {{ end }}` with `{{ $v.F }}` inside. Anything else
is a parse error. -/

namespace template

/-- The data a template is executed on: string fields, and list fields whose
elements are records of string fields. -/
structure Data where
  fields : List (String × String)
  lists : List (String × List (List (String × String)))

/-- A lexical item: literal text, or the source of an action (what stands
between the delimiters, trim markers removed). -/
inductive Item where
  | text (s : List Char)
  | action (s : List Char)
deriving DecidableEq, Repr

/-- The characters the trim markers remove (`spaceChars`). -/
def isSpaceChar (c : Char) : Bool := c == ' ' || c == '\t' || c == '\r' || c == '\n'

def trimLeft (s : List Char) : List Char := s.dropWhile isSpaceChar

def trimRight (s : List Char) : List Char := (s.reverse.dropWhile isSpaceChar).reverse

/-- The lexer (`lexText`, `lexLeftDelim`, `lexInsideAction`, `lexRightDelim`):
`inAction` tells whether the scanner is between delimiters, `acc` is the text
or the action source read so far. `none` is an unclosed action. -/
def lex : Nat → Bool → List Char → List Char → Option (List Item)
  | 0, _, _, _ => none
  | k + 1, false, acc, s =>
    match s with
    | [] => some [Item.text acc]
    | '\x7b' :: '\x7b' :: '-' :: ' ' :: rest =>
      (lex k true [] rest).map (fun r => Item.text (trimRight acc) :: r)
    | '\x7b' :: '\x7b' :: rest => (lex k true [] rest).map (fun r => Item.text acc :: r)
    | c :: rest => lex k false (acc ++ [c]) rest
  | k + 1, true, acc, s =>
    match s with
    | [] => none
    | ' ' :: '-' :: '\x7d' :: '\x7d' :: rest =>
      (lex k false [] (trimLeft rest)).map (fun r => Item.action acc :: r)
    | '\x7d' :: '\x7d' :: rest => (lex k false [] rest).map (fun r => Item.action acc :: r)
    | c :: rest => lex k true (acc ++ [c]) rest

/-- A node of a parsed template body without nesting. -/
inductive Node where
  | text (s : String)
  | field (name : String)
  | varField (var name : String)
  | rangeStart (var list : String)
  | rangeEnd
deriving DecidableEq, Repr

/-- An identifier: non-empty, made of letters, digits and underscores. -/
def isIdent (s : List Char) : Bool :=
  !s.isEmpty && s.all (fun c => c.isAlphanum || c == '_')

/-- The action a source text stands for, `none` when it is outside the
fragment. -/
def parseAction (src : List Char) : Option Node :=
  let a := trimRight (trimLeft src)
  if a = "end".toList then some Node.rangeEnd
  else
    match a with
    | '.' :: f => if isIdent f then some (Node.field (String.mk f)) else none
    | '$' :: r =>
      let v := r.takeWhile (fun c => c != '.')
      let f := (r.dropWhile (fun c => c != '.')).drop 1
      if isIdent v && isIdent f then some (Node.varField (String.mk v) (String.mk f)) else none
    | 'r' :: 'a' :: 'n' :: 'g' :: 'e' :: ' ' :: r =>
      match trimLeft r with
      | '$' :: r1 =>
        let v := r1.takeWhile (fun c => c.isAlphanum || c == '_')
        match trimLeft (r1.dropWhile (fun c => c.isAlphanum || c == '_')) with
        | ':' :: '=' :: r2 =>
          match trimLeft r2 with
          | '.' :: l =>
            if isIdent v && isIdent l then some (Node.rangeStart (String.mk v) (String.mk l))
            else none
          | _ => none
        | _ => none
      | _ => none
    | _ => none

def parseItems : List Item → Option (List Node)
  | [] => some []
  | Item.text s :: rest => (parseItems rest).map (fun r => Node.text (String.mk s) :: r)
  | Item.action s :: rest =>
    match parseAction s with
    | none => none
    | some n => (parseItems rest).map (fun r => n :: r)

/-- A top-level node: a node without nesting, or a whole range block. -/
inductive Block where
  | plain (n : Node)
  | range (var list : String) (body : List Node)
deriving DecidableEq, Repr

/-- Whether a node may stand inside a range body of the fragment. -/
def Node.flat : Node → Bool
  | Node.rangeStart _ _ => false
  | Node.rangeEnd => false
  | _ => true

/-- Group the nodes into blocks: a range runs up to the next `end`. -/
def group : Nat → List Node → Option (List Block)
  | 0, _ => none
  | _ + 1, [] => some []
  | k + 1, Node.rangeStart v l :: rest =>
    let body := rest.takeWhile Node.flat
    match rest.dropWhile Node.flat with
    | Node.rangeEnd :: after => (group k after).map (fun r => Block.range v l body :: r)
    | _ => none
  | _ + 1, Node.rangeEnd :: _ => none
  | k + 1, n :: rest => (group k rest).map (fun r => Block.plain n :: r)

/-- A parsed template. -/
abbrev Template := List Block

/-- Go `template.New("").Parse(text)`. -/
def Parse (text : String) : Except GoError Template :=
  match lex (text.length + 1) false [] text.toList with
  | none => Except.error (errors.New "template: unclosed action")
  | some items =>
    match parseItems items with
    | none => Except.error (errors.New "template: unsupported action")
    | some nodes =>
      match group (nodes.length + 1) nodes with
      | none => Except.error (errors.New "template: unexpected range or end")
      | some blocks => Except.ok blocks

def lookup {α : Type} (name : String) : List (String × α) → Option α
  | [] => none
  | (k, v) :: rest => if k = name then some v else lookup name rest

/-- Execute the nodes of a range body for one element bound to `var`,
appending to the buffer `out`; on an error the output written so far stays. -/
def execBody (var : String) (elem : List (String × String)) :
    List Node → String → String × Option GoError
  | [], out => (out, none)
  | Node.text s :: rest, out => execBody var elem rest (out ++ s)
  | Node.varField v f :: rest, out =>
    if v = var then
      match lookup f elem with
      | some s => execBody var elem rest (out ++ s)
      | none => (out, some (errors.New ("template: can't evaluate field " ++ f)))
    else (out, some (errors.New ("template: undefined variable $" ++ v)))
  | _ :: _, out => (out, some (errors.New "template: unsupported node in range"))

/-- Execute a range body once per element, in order. -/
def execRange (var : String) (body : List Node) :
    List (List (String × String)) → String → String × Option GoError
  | [], out => (out, none)
  | elem :: rest, out =>
    match execBody var elem body out with
    | (out1, none) => execRange var body rest out1
    | (out1, some e) => (out1, some e)

/-- The walk of `Template.Execute` over the blocks, appending to `out`. -/
def exec (d : Data) : List Block → String → String × Option GoError
  | [], out => (out, none)
  | Block.plain (Node.text s) :: rest, out => exec d rest (out ++ s)
  | Block.plain (Node.field f) :: rest, out =>
    match lookup f d.fields with
    | some s => exec d rest (out ++ s)
    | none => (out, some (errors.New ("template: can't evaluate field " ++ f)))
  | Block.plain _ :: _, out => (out, some (errors.New "template: unsupported node"))
  | Block.range v l body :: rest, out =>
    match lookup l d.lists with
    | none => (out, some (errors.New ("template: can't evaluate field " ++ l)))
    | some elems =>
      match execRange v body elems out with
      | (out1, none) => exec d rest out1
      | (out1, some e) => (out1, some e)

/-- Go `Template.Execute(&buf, data)` on an empty buffer, returning the content
of the buffer afterwards and the error. -/
def Execute (t : Template) (d : Data) : String × Option GoError := exec d t ""

end template

/-! ## `internal/pkg/component/components/wireguard.go` -/

/-- A VPN peer of a cluster (`cluster.VPNPeer`). -/
structure VPNPeer where
  Name : String
  Address : String
  PrivateKey : String
  PublicKey : String
deriving DecidableEq, Repr

/-- The fields of `cluster.Cluster` the WireGuard code reads. -/
structure Cluster where
  Namespace : String
  Name : String
  VPNPeers : List VPNPeer
deriving DecidableEq, Repr

/-- Modelled from the spec: `Cluster.VPNPeer(name)`, whose code is not among
the sources ("One peer is distinguished by name as the mesh ingress",
"exactly one peer per name"): the peer of `VPNPeers` with that name, an error
when there is none. -/
def Cluster.VPNPeer (cluster : Cluster) (name : String) : Except GoError VPNPeer :=
  match cluster.VPNPeers.find? (fun p => p.Name == name) with
  | some p => Except.ok p
  | none => Except.error (errors.New ("could not find VPN peer " ++ name))

namespace components

def wireguardQuickTemplate : String :=
  "[Interface]\nAddress = \x7b\x7b .Address \x7d\x7d\nListenPort = \x7b\x7b .ListenPort \x7d\x7d\nPrivateKey = \x7b\x7b .PrivateKey \x7d\x7d\n"

def wireguardTemplate : String :=
  "[Interface]\nListenPort = \x7b\x7b .ListenPort \x7d\x7d\nPrivateKey = \x7b\x7b .PrivateKey \x7d\x7d\n\n\x7b\x7b- range $peer := .Peers \x7d\x7d\n[Peer]\nPublicKey = \x7b\x7b $peer.PublicKey \x7d\x7d\nAllowedIPs = \x7b\x7b $peer.AllowedIPs \x7d\x7d\n\x7b\x7b- end \x7d\x7d\n"

/-- An element of `wireguardConfigData.Peers`. -/
structure PeerData where
  PublicKey : String
  AllowedIPs : String
deriving DecidableEq, Repr

/-- The anonymous struct `wireguardConfigData`. -/
structure WireguardConfigData where
  Address : String
  ListenPort : String
  PrivateKey : String
  Peers : List PeerData
deriving DecidableEq, Repr

/-- The view the template engine has of `wireguardConfigData`. -/
def WireguardConfigData.toData (d : WireguardConfigData) : template.Data :=
  { fields := [("Address", d.Address), ("ListenPort", d.ListenPort), ("PrivateKey", d.PrivateKey)]
    lists := [("Peers", d.Peers.map (fun p =>
      [("PublicKey", p.PublicKey), ("AllowedIPs", p.AllowedIPs)]))] }

/-- The body of the loop over `cluster.VPNPeers` for a peer that is not the
ingress (lines 98-114): the string stored in `AllowedIPs`. -/
def peerAllowedIPs (address : String) : Except GoError String :=
  match net.ParseCIDR address with
  | Except.error err => Except.error err
  | Except.ok (ipAddress, _) =>
    let ipAddressNet : net.IPNet :=
      if ipAddress.length = net.IPv6len then
        { IP := ipAddress, Mask := net.CIDRMask 128 128 }
      else
        { IP := ipAddress, Mask := net.CIDRMask 32 32 }
    Except.ok ipAddressNet.String

/-- The loop `for _, vpnPeer := range cluster.VPNPeers` (lines 94-115):
`peers` is `wireguardConfigData.Peers` so far. -/
def collectPeers : List VPNPeer → List PeerData → Except GoError (List PeerData)
  | [], peers => Except.ok peers
  | vpnPeer :: rest, peers =>
    if vpnPeer.Name = "control-plane-ingress" then collectPeers rest peers
    else
      match peerAllowedIPs vpnPeer.Address with
      | Except.error err => Except.error err
      | Except.ok allowedIPs =>
        collectPeers rest (peers ++ [{ PublicKey := vpnPeer.PublicKey, AllowedIPs := allowedIPs }])

/-- Source `ControlPlaneIngress.wireguardConfiguration`: the quick config, the full
config and the error. `requestPort` is the result of
`component.RequestPort(hypervisor, WireguardHostPortName)`. -/
def ControlPlaneIngress.wireguardConfiguration (requestPort : Except GoError Int)
    (cluster : Cluster) : String × String × Option GoError :=
  match requestPort with
  | Except.error err => ("", "", some err)
  | Except.ok wireguardHostPort =>
    match cluster.VPNPeer "control-plane-ingress" with
    | Except.error err => ("", "", some err)
    | Except.ok vpnPeer =>
      match template.Parse wireguardQuickTemplate with
      | Except.error err => ("", "", some err)
      | Except.ok quickTemplate =>
        match template.Parse wireguardTemplate with
        | Except.error err => ("", "", some err)
        | Except.ok tmpl =>
          match collectPeers cluster.VPNPeers [] with
          | Except.error err => ("", "", some err)
          | Except.ok peers =>
            let wireguardConfigData : WireguardConfigData :=
              { Address := vpnPeer.Address
                ListenPort := strconv.Itoa wireguardHostPort
                PrivateKey := vpnPeer.PrivateKey
                Peers := peers }
            match template.Execute quickTemplate wireguardConfigData.toData with
            | (_, some err) => ("", "", some err)
            | (quickRendered, none) =>
              match template.Execute tmpl wireguardConfigData.toData with
              | (rendered, err) => (quickRendered, rendered, err)

/-! ### `crypto/sha1` (Go standard library) -/

namespace sha1

/-- Rotate a 32-bit word left (`bits.RotateLeft32`). -/
def rotl (x n : Nat) : Nat := ((x <<< n) ||| (x >>> (32 - n))) % 2 ^ 32

/-- A big-endian word from its bytes. -/
def be32 (bs : List Nat) : Nat := bs.foldl (fun acc b => acc * 256 + b) 0

def putUint64 (n : Nat) : List Nat :=
  [n >>> 56 % 256, n >>> 48 % 256, n >>> 40 % 256, n >>> 32 % 256,
   n >>> 24 % 256, n >>> 16 % 256, n >>> 8 % 256, n % 256]

def putUint32 (n : Nat) : List Nat :=
  [n >>> 24 % 256, n >>> 16 % 256, n >>> 8 % 256, n % 256]

/-- The padding of `checkSum`: 0x80, zeros up to 56 bytes mod 64, and the
length in bits as a 64-bit big-endian number. -/
def pad (msg : List Nat) : List Nat :=
  let t := msg.length % 64
  let zeros := if t < 56 then 55 - t else 64 + 55 - t
  msg ++ [0x80] ++ List.replicate zeros 0 ++ putUint64 (msg.length * 8)

/-- The state `h` of a `digest`. -/
structure Digest where
  h0 : Nat
  h1 : Nat
  h2 : Nat
  h3 : Nat
  h4 : Nat
deriving DecidableEq, Repr

/-- The state after `Reset`. -/
def init : Digest := ⟨0x67452301, 0xEFCDAB89, 0x98BADCFE, 0x10325476, 0xC3D2E1F0⟩

/-- The first `n` big-endian words of a block. -/
def words : Nat → List Nat → List Nat
  | 0, _ => []
  | n + 1, bs => be32 (bs.take 4) :: words n (bs.drop 4)

/-- The rounds `i, i+1, ...` of `blockGeneric`; `w` holds the sixteen most
recent schedule words, the word of round `i` first. -/
def rounds : Nat → Nat → List Nat → Digest → Digest
  | 0, _, _, d => d
  | n + 1, i, w, ⟨a, b, c, d, e⟩ =>
    let f := if i < 20 then ((b &&& c) ||| ((b ^^^ 0xFFFFFFFF) &&& d))
      else if i < 40 then (b ^^^ c ^^^ d)
      else if i < 60 then (((b ||| c) &&& d) ||| (b &&& c))
      else (b ^^^ c ^^^ d)
    let k := if i < 20 then 0x5A827999 else if i < 40 then 0x6ED9EBA1
      else if i < 60 then 0x8F1BBCDC else 0xCA62C1D6
    let t := (rotl a 5 + f + e + w.headD 0 + k) % 2 ^ 32
    let nw := rotl (w.getD 13 0 ^^^ w.getD 8 0 ^^^ w.getD 2 0 ^^^ w.getD 0 0) 1
    rounds n (i + 1) (w.drop 1 ++ [nw]) ⟨t, a, rotl b 30, c, d⟩

/-- One 64-byte block. -/
def block (d : Digest) (p : List Nat) : Digest :=
  let r := rounds 80 0 (words 16 p) d
  ⟨(d.h0 + r.h0) % 2 ^ 32, (d.h1 + r.h1) % 2 ^ 32, (d.h2 + r.h2) % 2 ^ 32,
   (d.h3 + r.h3) % 2 ^ 32, (d.h4 + r.h4) % 2 ^ 32⟩

def blocks : Nat → Digest → List Nat → Digest
  | 0, d, _ => d
  | n + 1, d, p => blocks n (block d (p.take 64)) (p.drop 64)

/-- Go `sha1.Sum(data)`: the 20 bytes of the SHA-1 checksum. -/
def Sum (data : List Nat) : List Nat :=
  let d := blocks ((pad data).length / 64) init (pad data)
  putUint32 d.h0 ++ putUint32 d.h1 ++ putUint32 d.h2 ++ putUint32 d.h3 ++ putUint32 d.h4

end sha1

/-- Source `wireguardInterfaceName`: the first 15 bytes of "wg-" followed by the
hexadecimal SHA-1 digest of `clusterNamespace-clusterName`. -/
def wireguardInterfaceName (clusterNamespace clusterName : String) : Outcome String :=
  match sliceString ("wg-".toList ++
      fmtHexBytes (sha1.Sum (stringBytes (clusterNamespace ++ "-" ++ clusterName)))) 0 15 with
  | Outcome.ok cs => Outcome.ok (String.mk cs)
  | Outcome.error e => Outcome.error e
  | Outcome.panic m => Outcome.panic m

end components

/-! ## Package `encoding/base64` (Go standard library), `RawStdEncoding` -/

namespace base64

/-- The standard alphabet (`encodeStd`) read backwards: the 6-bit value of a
character, `none` for a character outside the alphabet (0xff in
`decodeMap`). -/
def decodeMap (c : Char) : Option Nat :=
  if 'A' ≤ c ∧ c ≤ 'Z' then some (c.toNat - 'A'.toNat)
  else if 'a' ≤ c ∧ c ≤ 'z' then some (c.toNat - 'a'.toNat + 26)
  else if '0' ≤ c ∧ c ≤ '9' then some (c.toNat - '0'.toNat + 52)
  else if c = '+' then some 62
  else if c = '/' then some 63
  else none

/-- Go `CorruptInputError(n)`. -/
def CorruptInputError (n : Nat) : GoError :=
  errors.New ("illegal base64 data at input byte " ++ Nat.repr n)

/-- The bytes a quantum of two, three or four 6-bit values stands for. -/
def quantumBytes (q : List Nat) : List Nat :=
  let val := q.getD 0 0 <<< 18 ||| q.getD 1 0 <<< 12 ||| q.getD 2 0 <<< 6 ||| q.getD 3 0
  ([val >>> 16 % 256, val >>> 8 % 256, val % 256]).take (q.length - 1)

/-- Go `Encoding.Decode` for an encoding without padding and without strict
mode (`decodeQuantum` repeated): `q` is the quantum read so far, `si` the
input position, `out` the bytes decoded so far. Line feeds and carriage
returns are skipped. -/
def decodeLoop : List Char → List Nat → Nat → List Nat → Except GoError (List Nat)
  | [], q, si, out =>
    if q.length = 0 then Except.ok out
    else if q.length = 1 then Except.error (CorruptInputError (si - 1))
    else Except.ok (out ++ quantumBytes q)
  | c :: cs, q, si, out =>
    match decodeMap c with
    | some v =>
      if q.length = 3 then decodeLoop cs [] (si + 1) (out ++ quantumBytes (q ++ [v]))
      else decodeLoop cs (q ++ [v]) (si + 1) out
    | none =>
      if c = '\n' ∨ c = '\r' then decodeLoop cs q (si + 1) out
      else Except.error (CorruptInputError si)

/-- Go `RawStdEncoding.DecodedLen(n)`. -/
def DecodedLen (n : Nat) : Nat := n * 6 / 8

/-- Go `RawStdEncoding.DecodeString(s)`: the decoded bytes, which are a slice of
a buffer of capacity `DecodedLen(len(s))`. -/
def DecodeString (s : String) : Except GoError (List Nat) := decodeLoop s.toList [] 0 []

end base64

/-! ## `internal/pkg/node` -/

namespace node

/-- The VPN descriptor of a node join request (`nodejoinrequests.VPN`); in an
issued request every field is encrypted. -/
structure VPN where
  CIDR : String
  Address : String
  PeerPrivateKey : String
  Endpoint : String
  EndpointPublicKey : String
deriving DecidableEq, Repr

/-- The fields of `nodejoinrequests.NodeJoinRequest` the node code reads. -/
structure NodeJoinRequest where
  Name : String
  ContainerRuntimeEndpoint : String
  ImageServiceEndpoint : String
  KubeConfig : String
  KubeletConfig : String
  VPN : VPN
deriving DecidableEq, Repr

/-- Go `gcm.Open(nil, nonce, ciphertext, nil)` of `crypto/cipher` for the AES
key `key`, followed by the conversion of the plaintext to a string: a
parameter of the development. Called with a nonce of the standard size it
returns a plaintext or an error. -/
abbrev GCMOpen := (key nonce ciphertext : List Nat) → Except GoError String

/-- Source `decrypt` (join.go, lines 258-278). -/
def decrypt (gcmOpen : GCMOpen) (symmetricKey : String) (base64Data : String) :
    Outcome String :=
  let key := stringBytes symmetricKey
  -- aes.NewCipher: the key is 16, 24 or 32 bytes long
  if key.length ≠ 16 ∧ key.length ≠ 24 ∧ key.length ≠ 32 then
    Outcome.error (errors.New ("crypto/aes: invalid key size " ++ Nat.repr key.length))
  else
    -- cipher.NewGCM(block) succeeds on an AES block; gcm.NonceSize() is 12
    let nonceSize := 12
    match base64.DecodeString base64Data with
    | Except.error err => Outcome.error err
    | Except.ok data =>
      -- nonce, ciphertext := data[:nonceSize], data[nonceSize:]
      if nonceSize > base64.DecodedLen (stringBytes base64Data).length then
        Outcome.panic "runtime error: slice bounds out of range [:12] with capacity"
      else if nonceSize > data.length then
        Outcome.panic "runtime error: slice bounds out of range [12:len]"
      else
        match gcmOpen key (data.take nonceSize) (data.drop nonceSize) with
        | Except.error err => Outcome.error err
        | Except.ok plaintext => Outcome.ok plaintext

def wireguardTemplate : String :=
  "[Interface]\nAddress = \x7b\x7b .Address \x7d\x7d\nPrivateKey = \x7b\x7b .PeerPrivateKey \x7d\x7d\n\n[Peer]\nEndpoint = \x7b\x7b .Endpoint \x7d\x7d\nPublicKey = \x7b\x7b .EndpointPublicKey \x7d\x7d\nAllowedIPs = \x7b\x7b .CIDR \x7d\x7d\nPersistentKeepalive = 21\n"

/-- The view the template engine has of a `nodejoinrequests.VPN`. -/
def VPN.toData (v : VPN) : template.Data :=
  { fields := [("CIDR", v.CIDR), ("Address", v.Address), ("PeerPrivateKey", v.PeerPrivateKey),
      ("Endpoint", v.Endpoint), ("EndpointPublicKey", v.EndpointPublicKey)]
    lists := [] }

/-- Source `wireguardConfiguration` (node side, wireguard.go, lines 43-77): the
rendered text and the error, or a panic. -/
def wireguardConfiguration (gcmOpen : GCMOpen) (nodeJoinRequest : NodeJoinRequest)
    (symmetricKey : String) : Outcome (String × Option GoError) :=
  match template.Parse wireguardTemplate with
  | Except.error err => Outcome.ok ("", some err)
  | Except.ok tmpl =>
    match decrypt gcmOpen symmetricKey nodeJoinRequest.VPN.CIDR with
    | Outcome.panic m => Outcome.panic m
    | Outcome.error err => Outcome.ok ("", some err)
    | Outcome.ok cidr =>
      match decrypt gcmOpen symmetricKey nodeJoinRequest.VPN.Address with
      | Outcome.panic m => Outcome.panic m
      | Outcome.error err => Outcome.ok ("", some err)
      | Outcome.ok peerAddress =>
        match decrypt gcmOpen symmetricKey nodeJoinRequest.VPN.PeerPrivateKey with
        | Outcome.panic m => Outcome.panic m
        | Outcome.error err => Outcome.ok ("", some err)
        | Outcome.ok peerPrivateKey =>
          match decrypt gcmOpen symmetricKey nodeJoinRequest.VPN.Endpoint with
          | Outcome.panic m => Outcome.panic m
          | Outcome.error err => Outcome.ok ("", some err)
          | Outcome.ok endpointAddress =>
            match decrypt gcmOpen symmetricKey nodeJoinRequest.VPN.EndpointPublicKey with
            | Outcome.panic m => Outcome.panic m
            | Outcome.error err => Outcome.ok ("", some err)
            | Outcome.ok endpointPublicKey =>
              Outcome.ok (template.Execute tmpl (VPN.toData
                { CIDR := cidr
                  Address := peerAddress
                  PeerPrivateKey := peerPrivateKey
                  Endpoint := endpointAddress
                  EndpointPublicKey := endpointPublicKey }))

end node

/-! ### `internal/pkg/node/join.go` -/

namespace node

/-- The fields of the versioned `nodev1alpha1.NodeJoinRequest` the join code
writes and reads: the object name and namespace, the spec, and the status
conditions. -/
structure NodeJoinRequestV1alpha1 where
  Name : String
  Namespace : String
  SymmetricKey : String
  APIServerEndpoint : String
  ContainerRuntimeEndpoint : String
  ImageServiceEndpoint : String
  Conditions : List String
deriving DecidableEq, Repr

/-- The condition type `nodev1alpha1.Issued`. -/
def Issued : String := "Issued"

/-- Modelled from the spec: `NodeJoinRequest.HasCondition`, whose code is not
among the sources ("record exposes an issuance condition"): whether the
record carries the condition. -/
def NodeJoinRequestV1alpha1.HasCondition (r : NodeJoinRequestV1alpha1) (c : String) : Bool :=
  r.Conditions.contains c

/-- Go `apierrors.IsAlreadyExists(err)`: the status reason of the error is
`metav1.StatusReasonAlreadyExists`. -/
def IsAlreadyExists (err : GoError) : Bool := err.reason == "AlreadyExists"

/-- Constants of the packages `constants` and `node` that the join code
uses and that are declared outside the sources. -/
structure Constants where
  OneInfraNamespace : String
  OneInfraConfigDir : String
  KubeletKubeConfigPath : String
  KubeletDir : String
  KubeletConfigPath : String
  kubeletInstallerImage : String
  systemdDir : String

/-- Go `filepath.Join` of a clean directory and a file name. -/
def filepathJoin (dir file : String) : String := dir ++ "/" ++ file

/-- What the join does to the local node and its hypervisor, in order. -/
inductive Effect where
  | mkdirAll (path : String)
  | writeFile (path content : String)
  | ensureImage (endpoint image : String)
  | runAndWaitForPod (endpoint pod : String)
  | systemctl (args : List String)
deriving DecidableEq, Repr

/-- One round of the `select` in `waitForJoinRequestIssuedCondition`: the
timeout channel fired, or the tick channel fired and the request was fetched
with the given result. -/
inductive PollEvent where
  | timeout
  | tick (fetched : Except GoError NodeJoinRequestV1alpha1)

/-- The collaborators of the join: the cluster API, the local file system,
the hypervisor, the service manager, and the library calls whose code is
outside the sources. -/
structure Env where
  constants : Constants
  /-- Source `cluster.KubeConfigWithToken`, `AddToScheme`, `RESTClientFromKubeConfig`. -/
  createClient : Option GoError
  /-- Go `os.Stat` of a path reports that it does not exist. -/
  statIsNotExist : String → Bool
  /-- Go `rand.Read` on a buffer of the given size. -/
  randRead : Nat → Except GoError (List Nat)
  mkdirAll : String → Option GoError
  writeFile : String → String → Option GoError
  readFile : String → Except GoError String
  /-- Source `joinTokenPublicKey.Encrypt`. -/
  encrypt : String → Except GoError String
  /-- Go `client.Post()...Body(&request).Do().Error()`. -/
  post : NodeJoinRequestV1alpha1 → Option GoError
  /-- The rounds of the poll loop, in order. -/
  events : List PollEvent
  /-- Source `nodejoinrequests.NewNodeJoinRequestFromv1alpha1(&request, nil)`. -/
  convert : NodeJoinRequestV1alpha1 → Except GoError NodeJoinRequest
  gcmOpen : GCMOpen
  ensureImage : String → String → Option GoError
  runAndWaitForPod : String → String → Option GoError
  /-- Parsing and executing `kubeletSystemdServiceTemplate` on the node name,
  the two config paths and the two endpoints. -/
  renderKubeletService : String → String → String → String → String → Except GoError String
  /-- Go `exec.Command("systemctl", args...).Run()`. -/
  systemctl : List String → Option GoError

/-- Source `createJoinRequest` (lines 104-128); `post` is the request to the cluster
API. -/
def createJoinRequest (constants : Constants) (post : NodeJoinRequestV1alpha1 → Option GoError)
    (apiServerEndpoint nodename symmetricKey containerRuntimeEndpoint
      imageServiceEndpoint : String) : Option GoError :=
  let nodeJoinRequest : NodeJoinRequestV1alpha1 :=
    { Name := nodename
      Namespace := constants.OneInfraNamespace
      SymmetricKey := symmetricKey
      APIServerEndpoint := apiServerEndpoint
      ContainerRuntimeEndpoint := containerRuntimeEndpoint
      ImageServiceEndpoint := imageServiceEndpoint
      Conditions := [] }
  match post nodeJoinRequest with
  | some err => if !IsAlreadyExists err then some err else none
  | none => none

/-- Source `waitForJoinRequestIssuedCondition` (lines 130-159) over the rounds of
its `select`; `none` when the loop is still waiting after the last round
given. -/
def waitForJoinRequestIssuedCondition
    (convert : NodeJoinRequestV1alpha1 → Except GoError NodeJoinRequest) :
    List PollEvent → Option (Except GoError NodeJoinRequest)
  | [] => none
  | PollEvent.timeout :: _ =>
    some (Except.error (errors.New "timed out waiting for issued condition"))
  | PollEvent.tick (Except.error _) :: rest => waitForJoinRequestIssuedCondition convert rest
  | PollEvent.tick (Except.ok nodeJoinRequest) :: rest =>
    if nodeJoinRequest.HasCondition Issued then
      match convert nodeJoinRequest with
      | Except.error _ => some (Except.error (errors.New "could not convert node join request"))
      | Except.ok nodeJoinRequestInternal => some (Except.ok nodeJoinRequestInternal)
    else waitForJoinRequestIssuedCondition convert rest

/-- Source `readOrGenerateSymmetricKey` (lines 161-184). -/
def readOrGenerateSymmetricKey (env : Env) (t : List Effect) :
    Except GoError String × List Effect :=
  let keyPath := filepathJoin env.constants.OneInfraConfigDir "join.key"
  if env.statIsNotExist keyPath then
    match env.randRead 16 with
    | Except.error err => (Except.error err, t)
    | Except.ok symmetricKeyRaw =>
      let symmetricKey := String.mk (fmtHexBytes symmetricKeyRaw)
      match env.mkdirAll env.constants.OneInfraConfigDir with
      | some err => (Except.error err, t ++ [Effect.mkdirAll env.constants.OneInfraConfigDir])
      | none =>
        match env.writeFile keyPath symmetricKey with
        | some err =>
          (Except.error err, t ++ [Effect.mkdirAll env.constants.OneInfraConfigDir,
            Effect.writeFile keyPath symmetricKey])
        | none =>
          (Except.ok symmetricKey, t ++ [Effect.mkdirAll env.constants.OneInfraConfigDir,
            Effect.writeFile keyPath symmetricKey])
  else
    match env.readFile keyPath with
    | Except.error err => (Except.error err, t)
    | Except.ok symmetricKeyBytes => (Except.ok symmetricKeyBytes, t)

/-- The shape shared by `writeKubeConfig` and `writeKubeletConfig`: decrypt,
make the directory, write the file. -/
def decryptAndWrite (env : Env) (symmetricKey data dir path : String) (t : List Effect) :
    Outcome Unit × List Effect :=
  match decrypt env.gcmOpen symmetricKey data with
  | Outcome.panic m => (Outcome.panic m, t)
  | Outcome.error err => (Outcome.error err, t)
  | Outcome.ok config =>
    match env.mkdirAll dir with
    | some err => (Outcome.error err, t ++ [Effect.mkdirAll dir])
    | none =>
      match env.writeFile path config with
      | some err => (Outcome.error err, t ++ [Effect.mkdirAll dir, Effect.writeFile path config])
      | none => (Outcome.ok (), t ++ [Effect.mkdirAll dir, Effect.writeFile path config])

/-- Source `writeKubeConfig` (lines 186-195). -/
def writeKubeConfig (env : Env) (nodeJoinRequest : NodeJoinRequest) (symmetricKey : String)
    (t : List Effect) : Outcome Unit × List Effect :=
  decryptAndWrite env symmetricKey nodeJoinRequest.KubeConfig
    env.constants.OneInfraConfigDir env.constants.KubeletKubeConfigPath t

/-- Source `writeKubeletConfig` (lines 197-206). -/
def writeKubeletConfig (env : Env) (nodeJoinRequest : NodeJoinRequest) (symmetricKey : String)
    (t : List Effect) : Outcome Unit × List Effect :=
  decryptAndWrite env symmetricKey nodeJoinRequest.KubeletConfig
    env.constants.KubeletDir env.constants.KubeletConfigPath t

/-- Source `installKubelet` (lines 208-227). -/
def installKubelet (env : Env) (nodeJoinRequest : NodeJoinRequest) (t : List Effect) :
    Outcome Unit × List Effect :=
  let image := Effect.ensureImage nodeJoinRequest.ImageServiceEndpoint
    env.constants.kubeletInstallerImage
  match env.ensureImage nodeJoinRequest.ImageServiceEndpoint env.constants.kubeletInstallerImage with
  | some err => (Outcome.error err, t ++ [image])
  | none =>
    let run := Effect.runAndWaitForPod nodeJoinRequest.ContainerRuntimeEndpoint "kubelet-installer"
    match env.runAndWaitForPod nodeJoinRequest.ContainerRuntimeEndpoint "kubelet-installer" with
    | some err => (Outcome.error err, t ++ [image, run])
    | none => (Outcome.ok (), t ++ [image, run])

/-- Source `setupSystemd` (lines 229-252). -/
def setupSystemd (env : Env) (nodeJoinRequest : NodeJoinRequest) (t : List Effect) :
    Outcome Unit × List Effect :=
  match env.renderKubeletService nodeJoinRequest.Name env.constants.KubeletKubeConfigPath
      env.constants.KubeletConfigPath nodeJoinRequest.ImageServiceEndpoint
      nodeJoinRequest.ContainerRuntimeEndpoint with
  | Except.error err => (Outcome.error err, t)
  | Except.ok kubeletSystemdService =>
    let write := Effect.writeFile (filepathJoin env.constants.systemdDir "kubelet.service")
      kubeletSystemdService
    match env.writeFile (filepathJoin env.constants.systemdDir "kubelet.service")
        kubeletSystemdService with
    | some err => (Outcome.error err, t ++ [write])
    | none => (Outcome.ok (), t ++ [write])

/-- Source `startKubelet` (lines 254-256). -/
def startKubelet (env : Env) (t : List Effect) : Outcome Unit × List Effect :=
  match env.systemctl ["enable", "--now", "kubelet"] with
  | some err => (Outcome.error err, t ++ [Effect.systemctl ["enable", "--now", "kubelet"]])
  | none => (Outcome.ok (), t ++ [Effect.systemctl ["enable", "--now", "kubelet"]])

/-- Source `Join`, lines 51-69: up to the issued node join request. The result is
the symmetric key and the issued request, or the error `Join` returns;
`none` when the poll loop is still waiting. -/
def Join.request (env : Env) (nodename apiServerEndpoint containerRuntimeEndpoint
    imageServiceEndpoint : String) :
    Option (Except GoError (String × NodeJoinRequest) × List Effect) :=
  match env.createClient with
  | some err => some (Except.error err, [])
  | none =>
    match readOrGenerateSymmetricKey env [] with
    | (Except.error err, t) => some (Except.error err, t)
    | (Except.ok symmetricKey, t) =>
      match env.encrypt symmetricKey with
      | Except.error err => some (Except.error err, t)
      | Except.ok cryptedSymmetricKey =>
        match createJoinRequest env.constants env.post apiServerEndpoint nodename
            cryptedSymmetricKey containerRuntimeEndpoint imageServiceEndpoint with
        | some err => some (Except.error err, t)
        | none =>
          match waitForJoinRequestIssuedCondition env.convert env.events with
          | none => none
          | some (Except.error err) => some (Except.error err, t)
          | some (Except.ok nodeJoinRequest) => some (Except.ok (symmetricKey, nodeJoinRequest), t)

/-- Source `Join`, lines 70-85: what is done with the issued request. -/
def Join.configure (env : Env) (nodeJoinRequest : NodeJoinRequest) (symmetricKey : String)
    (t : List Effect) : Outcome Unit × List Effect :=
  match writeKubeConfig env nodeJoinRequest symmetricKey t with
  | (Outcome.panic m, t1) => (Outcome.panic m, t1)
  | (Outcome.error err, t1) => (Outcome.error err, t1)
  | (Outcome.ok _, t1) =>
    match writeKubeletConfig env nodeJoinRequest symmetricKey t1 with
    | (Outcome.panic m, t2) => (Outcome.panic m, t2)
    | (Outcome.error err, t2) => (Outcome.error err, t2)
    | (Outcome.ok _, t2) =>
      match installKubelet env nodeJoinRequest t2 with
      | (Outcome.panic m, t3) => (Outcome.panic m, t3)
      | (Outcome.error err, t3) => (Outcome.error err, t3)
      | (Outcome.ok _, t3) =>
        match setupSystemd env nodeJoinRequest t3 with
        | (Outcome.panic m, t4) => (Outcome.panic m, t4)
        | (Outcome.error err, t4) => (Outcome.error err, t4)
        | (Outcome.ok _, t4) =>
          match startKubelet env t4 with
          | (Outcome.panic m, t5) => (Outcome.panic m, t5)
          | (Outcome.error err, t5) => (Outcome.error err, t5)
          | (Outcome.ok _, t5) => (Outcome.ok (), t5)

/-- Source `Join` (lines 50-86): the outcome and the effects performed, in order;
`none` when the poll loop is still waiting. -/
def Join (env : Env) (nodename apiServerEndpoint containerRuntimeEndpoint
    imageServiceEndpoint : String) : Option (Outcome Unit × List Effect) :=
  match Join.request env nodename apiServerEndpoint containerRuntimeEndpoint
      imageServiceEndpoint with
  | none => none
  | some (Except.error err, t) => some (Outcome.error err, t)
  | some (Except.ok (symmetricKey, nodeJoinRequest), t) =>
    some (Join.configure env nodeJoinRequest symmetricKey t)

/-- Modelled from the spec: the cluster API behind `Post`, whose code is not
among the sources ("submitJoinRequest(req) -> ok|AlreadyExists|error", "a
duplicate submission for an existing name is not an error"): the store holds
the requests by name; a request whose name is taken is answered
`AlreadyExists` and the store is left as it was. -/
def apiPost (store : List NodeJoinRequestV1alpha1) (request : NodeJoinRequestV1alpha1) :
    Option GoError × List NodeJoinRequestV1alpha1 :=
  if store.any (fun r => r.Name == request.Name) then
    (some { message := "nodejoinrequests \"" ++ request.Name ++ "\" already exists"
            reason := "AlreadyExists" }, store)
  else (none, store ++ [request])

end node

/-! ## Definitions used to state the properties -/

namespace components

/-- The host route of a peer address in CIDR notation: the text of the
address itself (not of its network) with the prefix length 32 for an IPv4
address and 128 for an IPv6 address; the empty string when the address is no
CIDR. -/
def hostRoute (address : String) : String :=
  match net.ParseCIDR address with
  | Except.ok (ip, _) => net.IP.String ip ++ (if (net.IP.To4 ip).isSome then "/32" else "/128")
  | Except.error _ => ""

/-- Whether a peer is not the ingress peer. -/
def notIngress (p : VPNPeer) : Bool := p.Name != "control-plane-ingress"

/-- The ingress peer of the mesh scenario. -/
def meshIngress : VPNPeer :=
  { Name := "control-plane-ingress", Address := "10.0.0.1/24",
    PrivateKey := "ingress-private", PublicKey := "ingress-public" }

/-- The cluster of the mesh scenario: the ingress and two leaf peers. -/
def meshCluster : Cluster :=
  { Namespace := "default"
    Name := "cluster"
    VPNPeers :=
      [meshIngress,
       { Name := "A", Address := "10.0.0.2/24", PrivateKey := "a-private", PublicKey := "a-public" },
       { Name := "B", Address := "10.0.0.3/24", PrivateKey := "b-private", PublicKey := "b-public" }] }

end components

namespace node

/-- Whether a round of the poll loop is a tick that neither ends nor aborts
the wait: the fetch failed, or the request fetched is not yet issued. -/
def PollEvent.pending : PollEvent → Bool
  | PollEvent.timeout => false
  | PollEvent.tick (Except.error _) => true
  | PollEvent.tick (Except.ok nodeJoinRequest) => !nodeJoinRequest.HasCondition Issued

/-- The request `createJoinRequest` submits for its arguments. -/
def submittedRequest (constants : Constants) (apiServerEndpoint nodename symmetricKey
    containerRuntimeEndpoint imageServiceEndpoint : String) : NodeJoinRequestV1alpha1 :=
  { Name := nodename
    Namespace := constants.OneInfraNamespace
    SymmetricKey := symmetricKey
    APIServerEndpoint := apiServerEndpoint
    ContainerRuntimeEndpoint := containerRuntimeEndpoint
    ImageServiceEndpoint := imageServiceEndpoint
    Conditions := [] }

/-- A stand-in for `gcm.Open` in the examples: the ciphertext is the
plaintext followed by a 16-byte tag, and the tag is valid when all its bytes
are zero. -/
def exampleOpen : GCMOpen := fun _ _ ciphertext =>
  if ciphertext.length < 16 then
    Except.error (errors.New "cipher: message authentication failed")
  else if (ciphertext.drop (ciphertext.length - 16)).all (fun b => b == 0) then
    Except.ok (String.mk ((ciphertext.take (ciphertext.length - 16)).map Char.ofNat))
  else Except.error (errors.New "cipher: message authentication failed")

/-- The symmetric key of the examples: 32 hexadecimal digits, as
`readOrGenerateSymmetricKey` writes them. -/
def exampleKey : String := "000102030405060708090a0b0c0d0e0f"

/-- An issued request whose fields all decrypt under `exampleOpen`. -/
def exampleRequest : NodeJoinRequest :=
  { Name := "node-1"
    ContainerRuntimeEndpoint := "unix:///run/containerd/containerd.sock"
    ImageServiceEndpoint := "unix:///run/containerd/containerd.sock"
    KubeConfig := "AAAAAAAAAAAAAAAAa3ViZWNvbmZpZwAAAAAAAAAAAAAAAAAAAAA"
    KubeletConfig := "AAAAAAAAAAAAAAAAa3ViZWxldC1jb25maWcAAAAAAAAAAAAAAAAAAAAA"
    VPN :=
      { CIDR := "AAAAAAAAAAAAAAAAMTAuMC4wLjAvMjQAAAAAAAAAAAAAAAAAAAAA"
        Address := "AAAAAAAAAAAAAAAAMTAuMC4wLjIvMjQAAAAAAAAAAAAAAAAAAAAA"
        PeerPrivateKey := "AAAAAAAAAAAAAAAAcGVlci1wcml2YXRlAAAAAAAAAAAAAAAAAAAAAA"
        Endpoint := "AAAAAAAAAAAAAAAAMTkyLjAuMi4xOjUxODIwAAAAAAAAAAAAAAAAAAAAAA"
        EndpointPublicKey := "AAAAAAAAAAAAAAAAaW5ncmVzcy1wdWJsaWMAAAAAAAAAAAAAAAAAAAAA" } }

/-- The constants of the examples. -/
def exampleConstants : Constants :=
  { OneInfraNamespace := "oneinfra-system"
    OneInfraConfigDir := "/etc/oneinfra"
    KubeletKubeConfigPath := "/etc/oneinfra/kubelet.conf"
    KubeletDir := "/var/lib/kubelet"
    KubeletConfigPath := "/var/lib/kubelet/config.yaml"
    kubeletInstallerImage := "oneinfra/kubelet-installer"
    systemdDir := "/etc/systemd/system" }

/-- The versioned request the cluster shows once it is issued. -/
def exampleIssued : NodeJoinRequestV1alpha1 :=
  { Name := "node-1"
    Namespace := "oneinfra-system"
    SymmetricKey := "wrapped-key"
    APIServerEndpoint := "https://cluster:6443"
    ContainerRuntimeEndpoint := "unix:///run/containerd/containerd.sock"
    ImageServiceEndpoint := "unix:///run/containerd/containerd.sock"
    Conditions := ["Issued"] }

/-- A world in which every collaborator succeeds, the key file exists, the
first fetch fails, the second shows a request not yet issued, the third shows
the issued request, and the conversion yields `request`. -/
def exampleEnv (request : NodeJoinRequest) : Env :=
  { constants := exampleConstants
    createClient := none
    statIsNotExist := fun _ => false
    randRead := fun n => Except.ok (List.replicate n 0)
    mkdirAll := fun _ => none
    writeFile := fun _ _ => none
    readFile := fun _ => Except.ok exampleKey
    encrypt := fun _ => Except.ok "wrapped-key"
    post := fun _ => none
    events :=
      [PollEvent.tick (Except.error (errors.New "connection refused")),
       PollEvent.tick (Except.ok { exampleIssued with Conditions := [] }),
       PollEvent.tick (Except.ok exampleIssued)]
    convert := fun _ => Except.ok request
    gcmOpen := exampleOpen
    ensureImage := fun _ _ => none
    runAndWaitForPod := fun _ _ => none
    renderKubeletService := fun _ _ _ _ _ => Except.ok "[Unit]\n"
    systemctl := fun _ => none }

/-- The example world on a fresh node: there is no key file yet, and the
random source yields zero bytes. -/
def freshEnv (request : NodeJoinRequest) : Env :=
  { exampleEnv request with statIsNotExist := fun _ => true }

end node

/-! ## `ControlPlaneIngress.reconcileWireguard` -/

namespace pod

/-- A privilege level of the package `pod` (a Go enumeration). -/
abbrev Privileges := Nat

/-- The fields of `pod.Container` the WireGuard code sets. -/
structure Container where
  Name : String
  Image : String
  Command : List String
  Args : List String
  Mounts : List (String × String)
  Privileges : Privileges
deriving DecidableEq, Repr

/-- A pod, as far as the WireGuard code determines it: what `pod.NewPod` is
given. -/
structure Pod where
  Name : String
  Containers : List Container
  Ports : List (Int × Int)
  Privileges : Privileges
deriving DecidableEq, Repr

/-- Modelled from the spec: `pod.NewPod`, whose code is not among the sources
(the "podSpec" handed to `ensurePod` and `runAndWaitForPod`): the pod made of
the name, the containers, the port map and the privileges given. -/
def NewPod (name : String) (containers : List Container) (ports : List (Int × Int))
    (privileges : Privileges) : Pod :=
  { Name := name, Containers := containers, Ports := ports, Privileges := privileges }

end pod

namespace components

/-- Source `WireguardHostPortName`: the wireguard host port allocation name. -/
def WireguardHostPortName : String := "wireguard"

/-- Constants and helpers of the packages `constants`, `pod` and `components`
that `reconcileWireguard` uses and that are declared outside the sources. -/
structure Constants where
  WireguardImage : String
  PrivilegesNetworkPrivileged : pod.Privileges
  componentSecretsPathFile : String → String → String → String → String

/-- A hypervisor: any state machine over a state `σ`; every call returns its
error (or none) and the state it leaves. -/
structure Hypervisor (σ : Type) where
  EnsureImage : String → σ → Option GoError × σ
  UploadFiles : String → String → String → List (String × String) → σ → Option GoError × σ
  EnsurePod : String → String → String → pod.Pod → σ → Option GoError × σ
  RunAndWaitForPod : String → String → String → pod.Pod → σ → Option GoError × σ

/-- What `inquirer.ReconcilerInquirer` gives `reconcileWireguard`: the name of
the component, the hypervisor, the cluster, and `component.RequestPort` on
that hypervisor. -/
structure ReconcilerInquirer (σ : Type) where
  ComponentName : String
  Hypervisor : Hypervisor σ
  Cluster : Cluster
  RequestPort : String → σ → Except GoError Int × σ

/-- A call `reconcileWireguard` makes on its collaborators. -/
inductive Call where
  | EnsureImage (image : String)
  | RequestPort (name : String)
  | UploadFiles (clusterNamespace clusterName componentName : String)
      (files : List (String × String))
  | EnsurePod (clusterNamespace clusterName name : String) (p : pod.Pod)
  | RunAndWaitForPod (clusterNamespace clusterName componentName : String) (p : pod.Pod)
deriving DecidableEq, Repr

/-- A Go map literal with string keys: the entries in the order written, a
later entry replacing an earlier one with the same key. -/
def mapLiteral (entries : List (String × String)) : List (String × String) :=
  entries.foldl (fun m kv => m.filter (fun e => e.1 != kv.1) ++ [kv]) []

/-- Source `wireguardQuickConfigHostFile`. -/
def wireguardQuickConfigHostFile (constants : Constants)
    (clusterNamespace clusterName componentName : String) : String :=
  constants.componentSecretsPathFile clusterNamespace clusterName componentName "wg-quick.conf"

/-- Source `wireguardConfigHostFile`. -/
def wireguardConfigHostFile (constants : Constants)
    (clusterNamespace clusterName componentName : String) : String :=
  constants.componentSecretsPathFile clusterNamespace clusterName componentName "wg.conf"

/-- Source `wireguardConfigGuestFile`. -/
def wireguardConfigGuestFile (constants : Constants)
    (clusterNamespace clusterName componentName : String) : Outcome String :=
  match wireguardInterfaceName clusterNamespace clusterName with
  | Outcome.ok name =>
    Outcome.ok (constants.componentSecretsPathFile clusterNamespace clusterName componentName
      (name ++ ".conf"))
  | Outcome.error e => Outcome.error e
  | Outcome.panic m => Outcome.panic m

/-- Source `ControlPlaneIngress.reconcileWireguard` (lines 125-247) on a
hypervisor in state `s`: what it returns, the state it leaves, and the calls
it made, in order. The guest file and the interface name, which the source
computes anew for every pod, are computed once, before the first pod. -/
def ControlPlaneIngress.reconcileWireguard {σ : Type} (constants : Constants)
    (inquirer : ReconcilerInquirer σ) (s : σ) : Outcome Unit × σ × List Call :=
  let component := inquirer.ComponentName
  let hypervisor := inquirer.Hypervisor
  let cluster := inquirer.Cluster
  let image := Call.EnsureImage constants.WireguardImage
  match hypervisor.EnsureImage constants.WireguardImage s with
  | (some err, s1) => (Outcome.error err, s1, [image])
  | (none, s1) =>
    -- ingress.wireguardConfiguration(inquirer), which starts with component.RequestPort
    let port := Call.RequestPort WireguardHostPortName
    match inquirer.RequestPort WireguardHostPortName s1 with
    | (wireguardHostPort, s2) =>
      match ControlPlaneIngress.wireguardConfiguration wireguardHostPort cluster with
      | (_, _, some err) => (Outcome.error err, s2, [image, port])
      | (wireguardQuickConfig, wireguardConfig, none) =>
        let files := mapLiteral
          [(wireguardQuickConfigHostFile constants cluster.Namespace cluster.Name component,
              wireguardQuickConfig),
           (wireguardConfigHostFile constants cluster.Namespace cluster.Name component,
              wireguardConfig)]
        let upload := Call.UploadFiles cluster.Namespace cluster.Name component files
        match hypervisor.UploadFiles cluster.Namespace cluster.Name component files s2 with
        | (some err, s3) => (Outcome.error err, s3, [image, port, upload])
        | (none, s3) =>
          match wireguardConfigGuestFile constants cluster.Namespace cluster.Name component,
              wireguardInterfaceName cluster.Namespace cluster.Name with
          | Outcome.ok guestFile, Outcome.ok interfaceName =>
            -- TODO: remove me
            let debugQuick := pod.NewPod "wireguard-debug-quick"
              [{ Name := "wireguard-debug-quick"
                 Image := constants.WireguardImage
                 Command := ["sleep"]
                 Args := ["365d"]
                 Privileges := constants.PrivilegesNetworkPrivileged
                 Mounts := mapLiteral
                   [(wireguardQuickConfigHostFile constants cluster.Namespace cluster.Name
                      component, guestFile)] }]
              [] constants.PrivilegesNetworkPrivileged
            let s4 := (hypervisor.EnsurePod "" "" "wireguard-debug-quick" debugQuick s3).2
            let debug := pod.NewPod "wireguard-debug"
              [{ Name := "wireguard-debug"
                 Image := constants.WireguardImage
                 Command := ["sleep"]
                 Args := ["365d"]
                 Privileges := constants.PrivilegesNetworkPrivileged
                 Mounts := mapLiteral
                   [(wireguardConfigHostFile constants cluster.Namespace cluster.Name component,
                      guestFile)] }]
              [] constants.PrivilegesNetworkPrivileged
            let s5 := (hypervisor.EnsurePod "" "" "wireguard-debug" debug s4).2
            let up := pod.NewPod ("wireguard-" ++ cluster.Name)
              [{ Name := "wireguard"
                 Image := constants.WireguardImage
                 Command := ["wg-quick"]
                 Args := ["up", guestFile]
                 Mounts := mapLiteral
                   [(wireguardQuickConfigHostFile constants cluster.Namespace cluster.Name
                      component, guestFile)]
                 Privileges := constants.PrivilegesNetworkPrivileged }]
              [] constants.PrivilegesNetworkPrivileged
            let calls := [image, port, upload,
              Call.EnsurePod "" "" "wireguard-debug-quick" debugQuick,
              Call.EnsurePod "" "" "wireguard-debug" debug,
              Call.RunAndWaitForPod cluster.Namespace cluster.Name component up]
            match hypervisor.RunAndWaitForPod cluster.Namespace cluster.Name component up s5 with
            | (some err, s6) => (Outcome.error err, s6, calls)
            | (none, s6) =>
              let sync := pod.NewPod ("wireguard-" ++ cluster.Name)
                [{ Name := "wireguard"
                   Image := constants.WireguardImage
                   Command := ["wg"]
                   Args := ["syncconf", interfaceName, guestFile]
                   Mounts := mapLiteral
                     [(wireguardConfigHostFile constants cluster.Namespace cluster.Name
                        component, guestFile)]
                   Privileges := constants.PrivilegesNetworkPrivileged }]
                [] constants.PrivilegesNetworkPrivileged
              match hypervisor.RunAndWaitForPod cluster.Namespace cluster.Name component sync
                  s6 with
              | (some err, s7) =>
                (Outcome.error err, s7,
                  calls ++ [Call.RunAndWaitForPod cluster.Namespace cluster.Name component sync])
              | (none, s7) =>
                (Outcome.ok (), s7,
                  calls ++ [Call.RunAndWaitForPod cluster.Namespace cluster.Name component sync])
          | Outcome.panic m, _ => (Outcome.panic m, s3, [image, port, upload])
          | Outcome.error e, _ => (Outcome.error e, s3, [image, port, upload])
          | _, Outcome.panic m => (Outcome.panic m, s3, [image, port, upload])
          | _, Outcome.error e => (Outcome.error e, s3, [image, port, upload])

/-! ### The steps of the reconciliation, as the specification lists them -/

/-- The interface name of a cluster (the empty string if the slice in
`wireguardInterfaceName` were out of range, which it never is). -/
def interfaceName (clusterNamespace clusterName : String) : String :=
  match wireguardInterfaceName clusterNamespace clusterName with
  | Outcome.ok name => name
  | _ => ""

/-- The path under which the pods see the configuration. -/
def guestFile {σ : Type} (constants : Constants) (inquirer : ReconcilerInquirer σ) : String :=
  constants.componentSecretsPathFile inquirer.Cluster.Namespace inquirer.Cluster.Name
    inquirer.ComponentName
    (interfaceName inquirer.Cluster.Namespace inquirer.Cluster.Name ++ ".conf")

/-- The host path of the quick config. -/
def quickHostFile {σ : Type} (constants : Constants) (inquirer : ReconcilerInquirer σ) : String :=
  constants.componentSecretsPathFile inquirer.Cluster.Namespace inquirer.Cluster.Name
    inquirer.ComponentName "wg-quick.conf"

/-- The host path of the full config. -/
def fullHostFile {σ : Type} (constants : Constants) (inquirer : ReconcilerInquirer σ) : String :=
  constants.componentSecretsPathFile inquirer.Cluster.Namespace inquirer.Cluster.Name
    inquirer.ComponentName "wg.conf"

/-- The files uploaded: the quick config and the full config under their host
paths. -/
def uploadedFiles {σ : Type} (constants : Constants) (inquirer : ReconcilerInquirer σ)
    (quick full : String) : List (String × String) :=
  mapLiteral [(quickHostFile constants inquirer, quick), (fullHostFile constants inquirer, full)]

/-- A debug pod: it sleeps with the given host file mounted. -/
def debugPodOf {σ : Type} (constants : Constants) (inquirer : ReconcilerInquirer σ)
    (name hostFile : String) : pod.Pod :=
  { Name := name
    Containers :=
      [{ Name := name, Image := constants.WireguardImage, Command := ["sleep"], Args := ["365d"],
         Mounts := [(hostFile, guestFile constants inquirer)],
         Privileges := constants.PrivilegesNetworkPrivileged }]
    Ports := []
    Privileges := constants.PrivilegesNetworkPrivileged }

/-- The one-shot pod that runs `command args` with the given host file mounted
as the guest file. -/
def wireguardPodOf {σ : Type} (constants : Constants) (inquirer : ReconcilerInquirer σ)
    (command : String) (args : List String) (hostFile : String) : pod.Pod :=
  { Name := "wireguard-" ++ inquirer.Cluster.Name
    Containers :=
      [{ Name := "wireguard", Image := constants.WireguardImage, Command := [command],
         Args := args, Mounts := [(hostFile, guestFile constants inquirer)],
         Privileges := constants.PrivilegesNetworkPrivileged }]
    Ports := []
    Privileges := constants.PrivilegesNetworkPrivileged }

/-- The pod of `wg-quick up` on the quick config. -/
def quickUpPod {σ : Type} (constants : Constants) (inquirer : ReconcilerInquirer σ) : pod.Pod :=
  wireguardPodOf constants inquirer "wg-quick" ["up", guestFile constants inquirer]
    (quickHostFile constants inquirer)

/-- The pod of `wg syncconf` on the full config. -/
def syncconfPod {σ : Type} (constants : Constants) (inquirer : ReconcilerInquirer σ) : pod.Pod :=
  wireguardPodOf constants inquirer "wg"
    ["syncconf", interfaceName inquirer.Cluster.Namespace inquirer.Cluster.Name,
      guestFile constants inquirer]
    (fullHostFile constants inquirer)

/-- The calls of a complete reconciliation in the order of the specification:
ensure the image, derive the configuration (which requests the port), upload
the two files, ensure the two debug pods, bring the interface up with the
quick config, sync the full config. -/
def reconcileCalls {σ : Type} (constants : Constants) (inquirer : ReconcilerInquirer σ)
    (quick full : String) : List Call :=
  [Call.EnsureImage constants.WireguardImage,
   Call.RequestPort WireguardHostPortName,
   Call.UploadFiles inquirer.Cluster.Namespace inquirer.Cluster.Name inquirer.ComponentName
     (uploadedFiles constants inquirer quick full),
   Call.EnsurePod "" "" "wireguard-debug-quick"
     (debugPodOf constants inquirer "wireguard-debug-quick" (quickHostFile constants inquirer)),
   Call.EnsurePod "" "" "wireguard-debug"
     (debugPodOf constants inquirer "wireguard-debug" (fullHostFile constants inquirer)),
   Call.RunAndWaitForPod inquirer.Cluster.Namespace inquirer.Cluster.Name inquirer.ComponentName
     (quickUpPod constants inquirer),
   Call.RunAndWaitForPod inquirer.Cluster.Namespace inquirer.Cluster.Name inquirer.ComponentName
     (syncconfPod constants inquirer)]

/-- The constants of the examples. -/
def exampleConstants : Constants :=
  { WireguardImage := "oneinfra/wireguard"
    PrivilegesNetworkPrivileged := 1
    componentSecretsPathFile := fun clusterNamespace clusterName componentName file =>
      "/etc/oneinfra/clusters/" ++ clusterNamespace ++ "/" ++ clusterName ++ "/"
        ++ componentName ++ "/" ++ file }

/-- A hypervisor whose state counts the calls made; every call succeeds but
the `failing`-th call (counted from 0 over image, port, upload, pods), which
returns an error. Its debug pods fail always. -/
def exampleHypervisor (failing : Nat) : Hypervisor Nat :=
  { EnsureImage := fun _ n =>
      (if n = failing then some (errors.New "image pull failed") else none, n + 1)
    UploadFiles := fun _ _ _ _ n =>
      (if n = failing then some (errors.New "upload failed") else none, n + 1)
    EnsurePod := fun _ _ _ _ n => (some (errors.New "pod exists"), n + 1)
    RunAndWaitForPod := fun _ _ _ _ n =>
      (if n = failing then some (errors.New "pod failed") else none, n + 1) }

/-- The inquirer of the examples: the mesh cluster on the example hypervisor,
with port 51820 allocated. -/
def exampleInquirer (failing : Nat) : ReconcilerInquirer Nat :=
  { ComponentName := "control-plane-ingress"
    Hypervisor := exampleHypervisor failing
    Cluster := meshCluster
    RequestPort := fun _ n => (Except.ok 51820, n + 1) }

/-- The quick config of the mesh cluster with port 51820. -/
def exampleQuick : String :=
  "[Interface]\nAddress = 10.0.0.1/24\nListenPort = 51820\nPrivateKey = ingress-private\n"

/-- The full config of the mesh cluster with port 51820. -/
def exampleFull : String :=
  "[Interface]\nListenPort = 51820\nPrivateKey = ingress-private\n[Peer]\nPublicKey = a-public\nAllowedIPs = 10.0.0.2/32\n[Peer]\nPublicKey = b-public\nAllowedIPs = 10.0.0.3/32\n"

end components

namespace net

theorem parseIPv4_length (s : List Char) (ip : IP) (h : parseIPv4 s = some ip) :
    ip.length = 16 := by
  unfold parseIPv4 at h
  split at h
  · simp only [Option.some.injEq] at h
    subst h
    rfl
  · exact absurd h (by simp)

theorem parseIPv6Loop_length (k : Nat) :
    ∀ (ip : IP) (i : Nat) (s : List Char) (e : Option Nat) (r : IP × Nat × List Char × Option Nat),
      parseIPv6Loop k ip i s e = some r → r.1.length = ip.length := by
  induction k with
  | zero =>
    intro ip i s e r h
    simp only [parseIPv6Loop, Option.some.injEq] at h
    subst h
    rfl
  | succ k ih =>
    intro ip i s e r h
    unfold parseIPv6Loop at h
    split at h
    · simp only [Option.some.injEq] at h
      subst h
      rfl
    · split at h
      split at h
      · exact absurd h (by simp)
      · split at h
        · split at h
          · exact absurd h (by simp)
          · split at h
            · exact absurd h (by simp)
            · split at h
              · exact absurd h (by simp)
              · simp only [Option.some.injEq] at h
                subst h
                simp
        · simp only at h
          split at h
          · simp only [Option.some.injEq] at h
            subst h
            simp
          · split at h
            · exact absurd h (by simp)
            · split at h
              · split at h
                · exact absurd h (by simp)
                · split at h
                  · simp only [Option.some.injEq] at h
                    subst h
                    simp
                  · rw [ih _ _ _ _ _ h]
                    simp
              · rw [ih _ _ _ _ _ h]
                simp

theorem foldl_set_length {α : Type} (js : List α)
    (g : List Nat → α → Nat × Nat) (p : List Nat) :
    (js.foldl (fun (p : List Nat) j => p.set (g p j).1 (g p j).2) p).length = p.length := by
  induction js generalizing p with
  | nil => rfl
  | cons j js ih => simp [List.foldl_cons, ih]

theorem expandEllipsis_length (ip : IP) (i el : Nat) :
    (expandEllipsis ip i el).length = ip.length := by
  unfold expandEllipsis
  simp only
  rw [foldl_set_length _ (fun _ j => (j, 0))]
  rw [foldl_set_length _ (fun p j => (j + (IPv6len - i), p.getD j 0))]

theorem parseIPv6_length (s : List Char) (ip : IP) (h : parseIPv6 s = some ip) :
    ip.length = 16 := by
  unfold parseIPv6 at h
  simp only at h
  split at h
  · simp only [Option.some.injEq] at h
    subst h
    rfl
  · split at h
    · exact absurd h (by simp)
    · rename_i hloop
      have hlen := parseIPv6Loop_length _ _ _ _ _ _ hloop
      simp only [List.length_replicate] at hlen
      split at h
      · exact absurd h (by simp)
      · split at h
        · split at h
          · exact absurd h (by simp)
          · simp only [Option.some.injEq] at h
            subst h
            rw [expandEllipsis_length]
            exact hlen
        · split at h
          · exact absurd h (by simp)
          · simp only [Option.some.injEq] at h
            subst h
            exact hlen

/-- The address `ParseCIDR` returns always has the 16-byte form. -/
theorem ParseCIDR_length (s : String) (ip : IP) (n : IPNet)
    (h : ParseCIDR s = Except.ok (ip, n)) : ip.length = 16 := by
  unfold ParseCIDR at h
  simp only at h
  split at h
  · cases h
  · split at h
    · cases h
    · rename_i ip0 hip
      have hlen : ip0.length = 16 := by
        split at hip
        · exact parseIPv4_length _ _ hip
        · exact parseIPv6_length _ _ hip
      repeat' split at h
      all_goals first
        | (cases h; done)
        | (simp only [Except.ok.injEq, Prod.mk.injEq] at h
           rw [← h.1]
           exact hlen)

end net

namespace net

theorem CIDRMask_128 :
    CIDRMask 128 128 = [255, 255, 255, 255, 255, 255, 255, 255, 255, 255, 255, 255, 255, 255, 255, 255] := by
  rfl

theorem simpleMaskLength_128 :
    simpleMaskLength [255, 255, 255, 255, 255, 255, 255, 255, 255, 255, 255, 255, 255, 255, 255, 255]
      = some 128 := by
  rfl

theorem simpleMaskLength_32 : simpleMaskLength [255, 255, 255, 255] = some 32 := by
  rfl

theorem length_four (p : List Nat) (h : p.length = 4) : ∃ a b c d, p = [a, b, c, d] := by
  match p, h with
  | [a, b, c, d], _ => exact ⟨a, b, c, d, rfl⟩

/-- The 4-byte form of a 16-byte address has four bytes and prints like the
address itself. -/
theorem To4_of_length_16 (ip p4 : IP) (hlen : ip.length = 16) (h : IP.To4 ip = some p4) :
    p4.length = 4 ∧ IP.String p4 = IP.String ip := by
  have hp4 : p4.length = 4 := by
    unfold IP.To4 at h
    split at h
    · rename_i h4
      rw [hlen] at h4
      exact absurd h4 (by decide)
    · split at h
      · simp only [Option.some.injEq] at h
        subst h
        simp [hlen]
      · cases h
  refine ⟨hp4, ?_⟩
  obtain ⟨a, b, c, d, rfl⟩ := length_four p4 hp4
  have hself : IP.To4 [a, b, c, d] = some [a, b, c, d] := by
    simp [IP.To4, IPv4len]
  unfold IP.String
  rw [hself, h]
  simp [hlen]

theorem repr_suffix_32 : "/" ++ Nat.repr 32 = "/32" := by decide

theorem repr_suffix_128 : "/" ++ Nat.repr 128 = "/128" := by decide

/-- The network built by the loop over the peers prints as the address
followed by "/32" for an IPv4 address and by "/128" otherwise. -/
theorem IPNet_String_host (ip : IP) (hlen : ip.length = 16) :
    IPNet.String { IP := ip, Mask := CIDRMask 128 128 }
      = IP.String ip ++ (if (IP.To4 ip).isSome then "/32" else "/128") := by
  rw [CIDRMask_128]
  cases h : IP.To4 ip with
  | none =>
    have hnm : networkNumberAndMask { IP := ip, Mask := [255, 255, 255, 255, 255, 255, 255,
        255, 255, 255, 255, 255, 255, 255, 255, 255] } = some (ip, [255, 255, 255, 255, 255,
        255, 255, 255, 255, 255, 255, 255, 255, 255, 255, 255]) := by
      simp [networkNumberAndMask, h, hlen, IPv6len, IPv4len]
    simp only [IPNet.String, hnm, simpleMaskLength_128, String.append_assoc, repr_suffix_128]
    simp
  | some p4 =>
    obtain ⟨hp4, hs⟩ := To4_of_length_16 ip p4 hlen h
    have hnm : networkNumberAndMask { IP := ip, Mask := [255, 255, 255, 255, 255, 255, 255,
        255, 255, 255, 255, 255, 255, 255, 255, 255] } = some (p4, [255, 255, 255, 255]) := by
      simp [networkNumberAndMask, h, hp4, IPv6len, IPv4len]
    simp only [IPNet.String, hnm, simpleMaskLength_32, String.append_assoc, repr_suffix_32, hs]
    simp

theorem length_sixteen (p : List Nat) (h : p.length = 16) :
    ∃ b0 b1 b2 b3 b4 b5 b6 b7 b8 b9 b10 b11 b12 b13 b14 b15,
      p = [b0, b1, b2, b3, b4, b5, b6, b7, b8, b9, b10, b11, b12, b13, b14, b15] := by
  match p, h with
  | [b0, b1, b2, b3, b4, b5, b6, b7, b8, b9, b10, b11, b12, b13, b14, b15], _ =>
    exact ⟨b0, b1, b2, b3, b4, b5, b6, b7, b8, b9, b10, b11, b12, b13, b14, b15, rfl⟩

/-- A 16-byte address is an IPv4 address for `To4` exactly when it starts with
the IPv4-in-IPv6 bytes. -/
theorem To4_isSome_iff (ip : IP) (hlen : ip.length = 16) :
    (IP.To4 ip).isSome = true ↔ ip.take 12 = v4InV6Prefix := by
  obtain ⟨b0, b1, b2, b3, b4, b5, b6, b7, b8, b9, b10, b11, b12, b13, b14, b15, rfl⟩ :=
    length_sixteen ip hlen
  simp only [IP.To4, IPv4len, IPv6len, isZeros, v4InV6Prefix]
  simp
  constructor
  · rintro ⟨⟨h0, h1, h2, h3, h4, h5, h6, h7, h8, h9⟩, h10, h11⟩
    exact ⟨h0, h1, h2, h3, h4, h5, h6, h7, h8, h9, h10, h11⟩
  · rintro ⟨h0, h1, h2, h3, h4, h5, h6, h7, h8, h9, h10, h11⟩
    exact ⟨⟨h0, h1, h2, h3, h4, h5, h6, h7, h8, h9⟩, h10, h11⟩

end net

namespace components

/-- For an address that parses, the loop over the peers stores its host route
in `AllowedIPs`: the code always builds the 128-bit mask, and the network
prints with "/32" for an IPv4 address. -/
theorem peerAllowedIPs_hostRoute (address : String) (r : net.IP × net.IPNet)
    (h : net.ParseCIDR address = Except.ok r) :
    peerAllowedIPs address = Except.ok (hostRoute address) := by
  obtain ⟨ip, network⟩ := r
  have hlen := net.ParseCIDR_length address ip network h
  simp only [peerAllowedIPs, hostRoute, h, hlen, net.IPv6len, if_true]
  rw [net.IPNet_String_host ip hlen]

end components

/-! ## Properties of the ingress configuration -/

namespace components

theorem parse_wireguardQuickTemplate :
    template.Parse wireguardQuickTemplate = Except.ok
      [template.Block.plain (template.Node.text "[Interface]\nAddress = "),
       template.Block.plain (template.Node.field "Address"),
       template.Block.plain (template.Node.text "\nListenPort = "),
       template.Block.plain (template.Node.field "ListenPort"),
       template.Block.plain (template.Node.text "\nPrivateKey = "),
       template.Block.plain (template.Node.field "PrivateKey"),
       template.Block.plain (template.Node.text "\n")] := by
  rfl

theorem parse_wireguardTemplate :
    template.Parse wireguardTemplate = Except.ok
      [template.Block.plain (template.Node.text "[Interface]\nListenPort = "),
       template.Block.plain (template.Node.field "ListenPort"),
       template.Block.plain (template.Node.text "\nPrivateKey = "),
       template.Block.plain (template.Node.field "PrivateKey"),
       template.Block.plain (template.Node.text ""),
       template.Block.range "peer" "Peers"
         [template.Node.text "\n[Peer]\nPublicKey = ",
          template.Node.varField "peer" "PublicKey",
          template.Node.text "\nAllowedIPs = ",
          template.Node.varField "peer" "AllowedIPs",
          template.Node.text ""],
       template.Block.plain (template.Node.text "\n")] := by
  rfl

theorem string_join_cons (s : String) (l : List String) :
    String.join (s :: l) = s ++ String.join l := by
  have h : ∀ (l : List String) (a : String),
      l.foldl (fun r s => r ++ s) a = a ++ l.foldl (fun r s => r ++ s) "" := by
    intro l
    induction l with
    | nil => intro a; simp
    | cons x xs ih =>
      intro a
      simp only [List.foldl_cons]
      rw [ih (a ++ x), ih ("" ++ x)]
      simp [String.append_assoc]
  simp only [String.join, List.foldl_cons]
  rw [h l ("" ++ s)]
  simp

/-- The range over the peers writes, for each peer in order, a newline and
the three lines of its block, the last one without its newline. -/
theorem execRange_peers (peers : List PeerData) (out : String) :
    template.execRange "peer"
      [template.Node.text "\n[Peer]\nPublicKey = ",
       template.Node.varField "peer" "PublicKey",
       template.Node.text "\nAllowedIPs = ",
       template.Node.varField "peer" "AllowedIPs",
       template.Node.text ""]
      (peers.map (fun p => [("PublicKey", p.PublicKey), ("AllowedIPs", p.AllowedIPs)])) out
    = (out ++ String.join (peers.map (fun p =>
        "\n[Peer]\nPublicKey = " ++ p.PublicKey ++ "\nAllowedIPs = " ++ p.AllowedIPs)), none) := by
  induction peers generalizing out with
  | nil => simp [template.execRange, String.join]
  | cons p ps ih =>
    simp only [List.map_cons, template.execRange, template.execBody, template.lookup]
    simp only [string_join_cons]
    simp [ih, String.append_assoc]

/-- Moving the newline from the front of every block to its end. -/
theorem join_blocks_shift (cores : List String) :
    String.join (cores.map (fun c => "\n" ++ c)) ++ "\n"
      = "\n" ++ String.join (cores.map (fun c => c ++ "\n")) := by
  induction cores with
  | nil => simp [String.join]
  | cons c cs ih =>
    simp only [List.map_cons, string_join_cons, String.append_assoc]
    rw [ih]

/-- When every non-ingress address parses, the loop over the peers appends
one entry per non-ingress peer, in order. -/
theorem collectPeers_ok (vpnPeers : List VPNPeer) (peers : List PeerData)
    (hcidr : ∀ p ∈ vpnPeers, p.Name ≠ "control-plane-ingress" →
      ∃ r, net.ParseCIDR p.Address = Except.ok r) :
    collectPeers vpnPeers peers = Except.ok (peers ++ (vpnPeers.filter notIngress).map
      (fun p => { PublicKey := p.PublicKey, AllowedIPs := hostRoute p.Address })) := by
  induction vpnPeers generalizing peers with
  | nil => simp [collectPeers]
  | cons p ps ih =>
    have hrest : ∀ q ∈ ps, q.Name ≠ "control-plane-ingress" →
        ∃ r, net.ParseCIDR q.Address = Except.ok r :=
      fun q hq => hcidr q (List.mem_cons_of_mem _ hq)
    by_cases hp : p.Name = "control-plane-ingress"
    · simp [collectPeers, hp, notIngress, ih _ hrest]
    · obtain ⟨r, hr⟩ := hcidr p (List.mem_cons_self _ _) hp
      have hroute : peerAllowedIPs p.Address = Except.ok (hostRoute p.Address) :=
        peerAllowedIPs_hostRoute p.Address r hr
      simp [collectPeers, hp, notIngress, hroute, ih _ hrest]

/-- Executing the quick template writes the four lines of the interface
section, whatever the peers are. -/
theorem execute_quick (d : WireguardConfigData) :
    template.Execute
      [template.Block.plain (template.Node.text "[Interface]\nAddress = "),
       template.Block.plain (template.Node.field "Address"),
       template.Block.plain (template.Node.text "\nListenPort = "),
       template.Block.plain (template.Node.field "ListenPort"),
       template.Block.plain (template.Node.text "\nPrivateKey = "),
       template.Block.plain (template.Node.field "PrivateKey"),
       template.Block.plain (template.Node.text "\n")] d.toData
    = ("[Interface]\nAddress = " ++ d.Address ++ "\nListenPort = " ++ d.ListenPort
        ++ "\nPrivateKey = " ++ d.PrivateKey ++ "\n", none) := by
  simp [template.Execute, template.exec, template.lookup, WireguardConfigData.toData,
    String.append_assoc]

/-- Executing the full template writes the interface section without an
address and one block per entry of `Peers`, every line ended by a newline. -/
theorem execute_full (d : WireguardConfigData) :
    template.Execute
      [template.Block.plain (template.Node.text "[Interface]\nListenPort = "),
       template.Block.plain (template.Node.field "ListenPort"),
       template.Block.plain (template.Node.text "\nPrivateKey = "),
       template.Block.plain (template.Node.field "PrivateKey"),
       template.Block.plain (template.Node.text ""),
       template.Block.range "peer" "Peers"
         [template.Node.text "\n[Peer]\nPublicKey = ",
          template.Node.varField "peer" "PublicKey",
          template.Node.text "\nAllowedIPs = ",
          template.Node.varField "peer" "AllowedIPs",
          template.Node.text ""],
       template.Block.plain (template.Node.text "\n")] d.toData
    = ("[Interface]\nListenPort = " ++ d.ListenPort ++ "\nPrivateKey = " ++ d.PrivateKey ++ "\n"
        ++ String.join (d.Peers.map (fun p =>
          "[Peer]\nPublicKey = " ++ p.PublicKey ++ "\nAllowedIPs = " ++ p.AllowedIPs ++ "\n")),
       none) := by
  have hshift := join_blocks_shift (d.Peers.map (fun p =>
    "[Peer]\nPublicKey = " ++ p.PublicKey ++ "\nAllowedIPs = " ++ p.AllowedIPs))
  simp only [List.map_map] at hshift
  have hl : (fun c => "\n" ++ c) ∘ (fun (p : PeerData) =>
      "[Peer]\nPublicKey = " ++ p.PublicKey ++ "\nAllowedIPs = " ++ p.AllowedIPs)
      = fun p => "\n[Peer]\nPublicKey = " ++ p.PublicKey ++ "\nAllowedIPs = " ++ p.AllowedIPs := by
    funext p
    simp [Function.comp, String.append_assoc]
    rfl
  have hr : (fun c => c ++ "\n") ∘ (fun (p : PeerData) =>
      "[Peer]\nPublicKey = " ++ p.PublicKey ++ "\nAllowedIPs = " ++ p.AllowedIPs)
      = fun p => "[Peer]\nPublicKey = " ++ p.PublicKey ++ "\nAllowedIPs = " ++ p.AllowedIPs
          ++ "\n" := by
    funext p
    simp [Function.comp]
  rw [hl, hr] at hshift
  simp only [template.Execute, template.exec, template.lookup, WireguardConfigData.toData,
    if_true, if_false, execRange_peers]
  simp only [String.append_assoc] at hshift ⊢
  simp [hshift]

theorem parseCIDR_ingress :
    net.ParseCIDR "10.0.0.1/24" = Except.ok
      ([0, 0, 0, 0, 0, 0, 0, 0, 0, 0, 255, 255, 10, 0, 0, 1],
       { IP := [10, 0, 0, 0], Mask := [255, 255, 255, 0] }) := by
  rfl

theorem parseCIDR_peerA :
    net.ParseCIDR "10.0.0.2/24" = Except.ok
      ([0, 0, 0, 0, 0, 0, 0, 0, 0, 0, 255, 255, 10, 0, 0, 2],
       { IP := [10, 0, 0, 0], Mask := [255, 255, 255, 0] }) := by
  rfl

theorem parseCIDR_peerB :
    net.ParseCIDR "10.0.0.3/24" = Except.ok
      ([0, 0, 0, 0, 0, 0, 0, 0, 0, 0, 255, 255, 10, 0, 0, 3],
       { IP := [10, 0, 0, 0], Mask := [255, 255, 255, 0] }) := by
  rfl

/-- C1: for a cluster with a peer named "control-plane-ingress" in which every
other peer's address parses as a CIDR (and with a host port allocated), the
full config returned by `ControlPlaneIngress.wireguardConfiguration` is the
line "[Interface]", the line "ListenPort = port", the line "PrivateKey = key
of the ingress peer", then for each non-ingress peer, in `VPNPeers` order, the
three lines "[Peer]", "PublicKey = its public key", "AllowedIPs = its host
route", every line ended by a newline and nothing else; no error is
returned. -/
theorem full_config_exact (port : Int) (cluster : Cluster) (ingress : VPNPeer)
    (hing : cluster.VPNPeer "control-plane-ingress" = Except.ok ingress)
    (hcidr : ∀ p ∈ cluster.VPNPeers, p.Name ≠ "control-plane-ingress" →
      ∃ r, net.ParseCIDR p.Address = Except.ok r) :
    (ControlPlaneIngress.wireguardConfiguration (Except.ok port) cluster).2 =
      ("[Interface]\n" ++ ("ListenPort = " ++ strconv.Itoa port ++ "\n")
        ++ ("PrivateKey = " ++ ingress.PrivateKey ++ "\n")
        ++ String.join ((cluster.VPNPeers.filter notIngress).map (fun p =>
            "[Peer]\n" ++ ("PublicKey = " ++ p.PublicKey ++ "\n")
              ++ ("AllowedIPs = " ++ hostRoute p.Address ++ "\n"))),
       none) := by
  simp only [ControlPlaneIngress.wireguardConfiguration, hing, parse_wireguardQuickTemplate,
    parse_wireguardTemplate, collectPeers_ok cluster.VPNPeers [] hcidr, execute_quick,
    execute_full, List.nil_append, List.map_map]
  simp only [String.append_assoc, Function.comp]
  rfl

theorem full_config_exact_witness :
    meshCluster.VPNPeer "control-plane-ingress" = Except.ok meshIngress
      ∧ (∀ p ∈ meshCluster.VPNPeers, p.Name ≠ "control-plane-ingress" →
          ∃ r, net.ParseCIDR p.Address = Except.ok r)
      ∧ (ControlPlaneIngress.wireguardConfiguration (Except.ok 51820) meshCluster).2 =
          ("[Interface]\n" ++ ("ListenPort = " ++ strconv.Itoa 51820 ++ "\n")
            ++ ("PrivateKey = " ++ meshIngress.PrivateKey ++ "\n")
            ++ String.join ((meshCluster.VPNPeers.filter notIngress).map (fun p =>
                "[Peer]\n" ++ ("PublicKey = " ++ p.PublicKey ++ "\n")
                  ++ ("AllowedIPs = " ++ hostRoute p.Address ++ "\n"))),
           none) :=
  have hing : meshCluster.VPNPeer "control-plane-ingress" = Except.ok meshIngress := by rfl
  have hcidr : ∀ p ∈ meshCluster.VPNPeers, p.Name ≠ "control-plane-ingress" →
      ∃ r, net.ParseCIDR p.Address = Except.ok r := by
    intro p hp _
    simp only [meshCluster, List.mem_cons, List.mem_singleton, List.not_mem_nil, or_false] at hp
    rcases hp with rfl | rfl | rfl
    · exact ⟨_, parseCIDR_ingress⟩
    · exact ⟨_, parseCIDR_peerA⟩
    · exact ⟨_, parseCIDR_peerB⟩
  ⟨hing, hcidr, full_config_exact 51820 meshCluster meshIngress hing hcidr⟩

/-- C8: whenever `ControlPlaneIngress.wireguardConfiguration` succeeds, the
quick config is exactly the four lines "[Interface]", "Address = address of
the ingress peer as stored", "ListenPort = port", "PrivateKey = key of the
ingress peer", each ended by a newline; so it has no peer section, and every
cluster with the same ingress peer gets the same quick config. -/
theorem quick_config_exact (requestPort : Except GoError Int) (cluster : Cluster)
    (quick full : String)
    (hok : ControlPlaneIngress.wireguardConfiguration requestPort cluster = (quick, full, none)) :
    (∃ port ingress, requestPort = Except.ok port
        ∧ cluster.VPNPeer "control-plane-ingress" = Except.ok ingress
        ∧ quick = "[Interface]\n" ++ ("Address = " ++ ingress.Address ++ "\n")
            ++ ("ListenPort = " ++ strconv.Itoa port ++ "\n")
            ++ ("PrivateKey = " ++ ingress.PrivateKey ++ "\n"))
      ∧ ∀ (others : Cluster) (quick2 full2 : String),
          others.VPNPeer "control-plane-ingress" = cluster.VPNPeer "control-plane-ingress" →
          ControlPlaneIngress.wireguardConfiguration requestPort others = (quick2, full2, none) →
          quick2 = quick := by
  have key : ∀ (c : Cluster) (q f : String),
      ControlPlaneIngress.wireguardConfiguration requestPort c = (q, f, none) →
      ∃ port ingress, requestPort = Except.ok port
        ∧ c.VPNPeer "control-plane-ingress" = Except.ok ingress
        ∧ q = "[Interface]\nAddress = " ++ ingress.Address ++ "\nListenPort = "
            ++ strconv.Itoa port ++ "\nPrivateKey = " ++ ingress.PrivateKey ++ "\n" := by
    intro c q f h
    cases hrp : requestPort with
    | error e => simp [ControlPlaneIngress.wireguardConfiguration, hrp] at h
    | ok port =>
      cases hv : c.VPNPeer "control-plane-ingress" with
      | error e => simp [ControlPlaneIngress.wireguardConfiguration, hrp, hv] at h
      | ok ingress =>
        cases hc : collectPeers c.VPNPeers [] with
        | error e =>
          simp [ControlPlaneIngress.wireguardConfiguration, hrp, hv, hc,
            parse_wireguardQuickTemplate, parse_wireguardTemplate] at h
        | ok peers =>
          simp only [ControlPlaneIngress.wireguardConfiguration, hrp, hv, hc,
            parse_wireguardQuickTemplate, parse_wireguardTemplate, execute_quick,
            execute_full, Prod.mk.injEq] at h
          exact ⟨port, ingress, rfl, rfl, h.1.symm⟩
  constructor
  · obtain ⟨port, ingress, h1, h2, h3⟩ := key cluster quick full hok
    refine ⟨port, ingress, h1, h2, ?_⟩
    rw [h3]
    simp only [String.append_assoc]
    rfl
  · intro others quick2 full2 hsame hok2
    obtain ⟨port, ingress, h1, h2, h3⟩ := key cluster quick full hok
    obtain ⟨port2, ingress2, h4, h5, h6⟩ := key others quick2 full2 hok2
    rw [h1] at h4
    rw [hsame, h2] at h5
    cases h4
    cases h5
    rw [h3, h6]

theorem quick_config_exact_witness :
    ControlPlaneIngress.wireguardConfiguration (Except.ok 51820) meshCluster =
        ("[Interface]\nAddress = 10.0.0.1/24\nListenPort = 51820\nPrivateKey = ingress-private\n",
         "[Interface]\nListenPort = 51820\nPrivateKey = ingress-private\n[Peer]\nPublicKey = a-public\nAllowedIPs = 10.0.0.2/32\n[Peer]\nPublicKey = b-public\nAllowedIPs = 10.0.0.3/32\n",
         none)
      ∧ ((∃ port ingress, (Except.ok 51820 : Except GoError Int) = Except.ok port
            ∧ meshCluster.VPNPeer "control-plane-ingress" = Except.ok ingress
            ∧ "[Interface]\nAddress = 10.0.0.1/24\nListenPort = 51820\nPrivateKey = ingress-private\n"
                = "[Interface]\n" ++ ("Address = " ++ ingress.Address ++ "\n")
                ++ ("ListenPort = " ++ strconv.Itoa port ++ "\n")
                ++ ("PrivateKey = " ++ ingress.PrivateKey ++ "\n"))
          ∧ ∀ (others : Cluster) (quick2 full2 : String),
              others.VPNPeer "control-plane-ingress"
                = meshCluster.VPNPeer "control-plane-ingress" →
              ControlPlaneIngress.wireguardConfiguration (Except.ok 51820) others
                = (quick2, full2, none) →
              quick2
                = "[Interface]\nAddress = 10.0.0.1/24\nListenPort = 51820\nPrivateKey = ingress-private\n") :=
  have hok : ControlPlaneIngress.wireguardConfiguration (Except.ok 51820) meshCluster =
      ("[Interface]\nAddress = 10.0.0.1/24\nListenPort = 51820\nPrivateKey = ingress-private\n",
       "[Interface]\nListenPort = 51820\nPrivateKey = ingress-private\n[Peer]\nPublicKey = a-public\nAllowedIPs = 10.0.0.2/32\n[Peer]\nPublicKey = b-public\nAllowedIPs = 10.0.0.3/32\n",
       none) := by rfl
  ⟨hok, quick_config_exact (Except.ok 51820) meshCluster _ _ hok⟩

end components

namespace components

theorem parseCIDR_v6 :
    net.ParseCIDR "fd00::2/64" = Except.ok
      ([253, 0, 0, 0, 0, 0, 0, 0, 0, 0, 0, 0, 0, 0, 0, 2],
       { IP := [253, 0, 0, 0, 0, 0, 0, 0, 0, 0, 0, 0, 0, 0, 0, 0],
         Mask := [255, 255, 255, 255, 255, 255, 255, 255, 0, 0, 0, 0, 0, 0, 0, 0] }) := by
  rfl

/-- C2: for a peer whose address is a valid CIDR string, the `AllowedIPs`
value the loop of `ControlPlaneIngress.wireguardConfiguration` renders is the
text of the peer's own host address (the address `net.ParseCIDR` returns, not
the network) followed by "/32" when the address is an IPv4 address and by
"/128" when it is an IPv6 address. An address is an IPv4 address when Go's
`To4` is not nil, that is when its 16-byte form starts with the
IPv4-in-IPv6 bytes (a dotted-quad address or an IPv4-mapped one). -/
theorem allowedIPs_host_route (address : String) (ip : net.IP) (network : net.IPNet)
    (h : net.ParseCIDR address = Except.ok (ip, network)) :
    peerAllowedIPs address = Except.ok
        (net.IP.String ip ++ (if (net.IP.To4 ip).isSome then "/32" else "/128"))
      ∧ ((net.IP.To4 ip).isSome = true ↔ ip.take 12 = net.v4InV6Prefix) := by
  have hlen := net.ParseCIDR_length address ip network h
  constructor
  · simp only [peerAllowedIPs, h, hlen, net.IPv6len, if_true]
    rw [net.IPNet_String_host ip hlen]
  · exact net.To4_isSome_iff ip hlen

theorem allowedIPs_host_route_witness :
    (net.ParseCIDR "10.0.0.2/24" = Except.ok
        ([0, 0, 0, 0, 0, 0, 0, 0, 0, 0, 255, 255, 10, 0, 0, 2],
         { IP := [10, 0, 0, 0], Mask := [255, 255, 255, 0] })
      ∧ peerAllowedIPs "10.0.0.2/24" = Except.ok
          (net.IP.String [0, 0, 0, 0, 0, 0, 0, 0, 0, 0, 255, 255, 10, 0, 0, 2]
            ++ (if (net.IP.To4 [0, 0, 0, 0, 0, 0, 0, 0, 0, 0, 255, 255, 10, 0, 0, 2]).isSome
                then "/32" else "/128"))
      ∧ peerAllowedIPs "10.0.0.2/24" = Except.ok "10.0.0.2/32"
      ∧ net.IPNet.String { IP := [10, 0, 0, 0], Mask := [255, 255, 255, 0] } = "10.0.0.0/24")
    ∧ (net.ParseCIDR "fd00::2/64" = Except.ok
        ([253, 0, 0, 0, 0, 0, 0, 0, 0, 0, 0, 0, 0, 0, 0, 2],
         { IP := [253, 0, 0, 0, 0, 0, 0, 0, 0, 0, 0, 0, 0, 0, 0, 0],
           Mask := [255, 255, 255, 255, 255, 255, 255, 255, 0, 0, 0, 0, 0, 0, 0, 0] })
      ∧ peerAllowedIPs "fd00::2/64" = Except.ok
          (net.IP.String [253, 0, 0, 0, 0, 0, 0, 0, 0, 0, 0, 0, 0, 0, 0, 2]
            ++ (if (net.IP.To4 [253, 0, 0, 0, 0, 0, 0, 0, 0, 0, 0, 0, 0, 0, 0, 2]).isSome
                then "/32" else "/128"))
      ∧ peerAllowedIPs "fd00::2/64" = Except.ok "fd00::2/128") :=
  ⟨⟨parseCIDR_peerA, (allowedIPs_host_route "10.0.0.2/24" _ _ parseCIDR_peerA).1, by rfl,
      by rfl⟩,
   ⟨parseCIDR_v6, (allowedIPs_host_route "fd00::2/64" _ _ parseCIDR_v6).1, by rfl⟩⟩

end components

namespace node

theorem parse_nodeWireguardTemplate :
    template.Parse wireguardTemplate = Except.ok
      [template.Block.plain (template.Node.text "[Interface]\nAddress = "),
       template.Block.plain (template.Node.field "Address"),
       template.Block.plain (template.Node.text "\nPrivateKey = "),
       template.Block.plain (template.Node.field "PeerPrivateKey"),
       template.Block.plain (template.Node.text "\n\n[Peer]\nEndpoint = "),
       template.Block.plain (template.Node.field "Endpoint"),
       template.Block.plain (template.Node.text "\nPublicKey = "),
       template.Block.plain (template.Node.field "EndpointPublicKey"),
       template.Block.plain (template.Node.text "\nAllowedIPs = "),
       template.Block.plain (template.Node.field "CIDR"),
       template.Block.plain (template.Node.text "\nPersistentKeepalive = 21\n")] := by
  rfl

/-- C3: when the five fields of the VPN descriptor decrypt to `cidr`,
`address`, `peerPrivateKey`, `endpoint` and `endpointPublicKey`, the node-side
`wireguardConfiguration` returns, without error, exactly the interface
section with "Address = address" and "PrivateKey = peerPrivateKey", a blank
line, and one peer section with, in this order, "Endpoint = endpoint",
"PublicKey = endpointPublicKey", "AllowedIPs = cidr" and
"PersistentKeepalive = 21", the decrypted values inserted verbatim. -/
theorem node_config_exact (gcmOpen : GCMOpen) (nodeJoinRequest : NodeJoinRequest)
    (symmetricKey cidr address peerPrivateKey endpoint endpointPublicKey : String)
    (h1 : decrypt gcmOpen symmetricKey nodeJoinRequest.VPN.CIDR = Outcome.ok cidr)
    (h2 : decrypt gcmOpen symmetricKey nodeJoinRequest.VPN.Address = Outcome.ok address)
    (h3 : decrypt gcmOpen symmetricKey nodeJoinRequest.VPN.PeerPrivateKey
      = Outcome.ok peerPrivateKey)
    (h4 : decrypt gcmOpen symmetricKey nodeJoinRequest.VPN.Endpoint = Outcome.ok endpoint)
    (h5 : decrypt gcmOpen symmetricKey nodeJoinRequest.VPN.EndpointPublicKey
      = Outcome.ok endpointPublicKey) :
    wireguardConfiguration gcmOpen nodeJoinRequest symmetricKey = Outcome.ok
      ("[Interface]\n" ++ ("Address = " ++ address ++ "\n")
        ++ ("PrivateKey = " ++ peerPrivateKey ++ "\n")
        ++ "\n"
        ++ "[Peer]\n" ++ ("Endpoint = " ++ endpoint ++ "\n")
        ++ ("PublicKey = " ++ endpointPublicKey ++ "\n")
        ++ ("AllowedIPs = " ++ cidr ++ "\n")
        ++ "PersistentKeepalive = 21\n", none) := by
  simp only [wireguardConfiguration, parse_nodeWireguardTemplate, h1, h2, h3, h4, h5,
    template.Execute, template.exec, template.lookup, VPN.toData]
  simp [String.append_assoc]
  rfl

end node

namespace node

theorem exampleKey_length : (stringBytes exampleKey).length = 32 := by rfl

theorem decrypt_example_cidr :
    decrypt exampleOpen exampleKey exampleRequest.VPN.CIDR = Outcome.ok "10.0.0.0/24" := by
  rfl

theorem decrypt_example_address :
    decrypt exampleOpen exampleKey exampleRequest.VPN.Address = Outcome.ok "10.0.0.2/24" := by
  rfl

theorem decrypt_example_peerPrivateKey :
    decrypt exampleOpen exampleKey exampleRequest.VPN.PeerPrivateKey
      = Outcome.ok "peer-private" := by
  rfl

theorem decrypt_example_endpoint :
    decrypt exampleOpen exampleKey exampleRequest.VPN.Endpoint
      = Outcome.ok "192.0.2.1:51820" := by
  rfl

theorem decrypt_example_endpointPublicKey :
    decrypt exampleOpen exampleKey exampleRequest.VPN.EndpointPublicKey
      = Outcome.ok "ingress-public" := by
  rfl

theorem node_config_exact_witness :
    (decrypt exampleOpen exampleKey exampleRequest.VPN.CIDR = Outcome.ok "10.0.0.0/24"
      ∧ decrypt exampleOpen exampleKey exampleRequest.VPN.Address = Outcome.ok "10.0.0.2/24"
      ∧ decrypt exampleOpen exampleKey exampleRequest.VPN.PeerPrivateKey
          = Outcome.ok "peer-private"
      ∧ decrypt exampleOpen exampleKey exampleRequest.VPN.Endpoint
          = Outcome.ok "192.0.2.1:51820"
      ∧ decrypt exampleOpen exampleKey exampleRequest.VPN.EndpointPublicKey
          = Outcome.ok "ingress-public")
    ∧ wireguardConfiguration exampleOpen exampleRequest exampleKey = Outcome.ok
        ("[Interface]\n" ++ ("Address = " ++ "10.0.0.2/24" ++ "\n")
          ++ ("PrivateKey = " ++ "peer-private" ++ "\n")
          ++ "\n"
          ++ "[Peer]\n" ++ ("Endpoint = " ++ "192.0.2.1:51820" ++ "\n")
          ++ ("PublicKey = " ++ "ingress-public" ++ "\n")
          ++ ("AllowedIPs = " ++ "10.0.0.0/24" ++ "\n")
          ++ "PersistentKeepalive = 21\n", none) :=
  ⟨⟨decrypt_example_cidr, decrypt_example_address, decrypt_example_peerPrivateKey,
      decrypt_example_endpoint, decrypt_example_endpointPublicKey⟩,
    node_config_exact exampleOpen exampleRequest exampleKey _ _ _ _ _
      decrypt_example_cidr decrypt_example_address decrypt_example_peerPrivateKey
      decrypt_example_endpoint decrypt_example_endpointPublicKey⟩

end node

/-! ## Properties of `decrypt` and of the interface name -/

namespace node

/-- A short input makes `decrypt` panic: once the key is a valid AES key and
the input decodes to fewer bytes than the nonce size, the slice expression at
line 272 is out of range. -/
theorem decrypt_panics_of_short (gcmOpen : GCMOpen) (symmetricKey base64Data : String)
    (data : List Nat)
    (hkey : (stringBytes symmetricKey).length = 16 ∨ (stringBytes symmetricKey).length = 24
      ∨ (stringBytes symmetricKey).length = 32)
    (hdec : base64.DecodeString base64Data = Except.ok data) (hshort : data.length < 12) :
    ∃ m, decrypt gcmOpen symmetricKey base64Data = Outcome.panic m := by
  have hk : ¬ ((stringBytes symmetricKey).length ≠ 16 ∧ (stringBytes symmetricKey).length ≠ 24
      ∧ (stringBytes symmetricKey).length ≠ 32) := by
    omega
  simp only [decrypt, hk, if_false, hdec]
  by_cases hcap : 12 > base64.DecodedLen (stringBytes base64Data).length
  · exact ⟨"runtime error: slice bounds out of range [:12] with capacity", by simp [hcap]⟩
  · have hs : 12 > data.length := hshort
    exact ⟨"runtime error: slice bounds out of range [12:len]", by simp [hcap, hs]⟩

/-- C5: with a valid AES key (32 bytes), `decrypt` of the empty string and of
"AAAA" (valid unpadded base64 of 0 and of 3 bytes, fewer than the nonce
size 12) ends in a run-time panic at the nonce split, whatever the cipher
does; it returns neither a plaintext nor an error. -/
theorem decrypt_short_input_panics (gcmOpen : GCMOpen) :
    base64.DecodeString "" = Except.ok []
      ∧ decrypt gcmOpen exampleKey ""
          = Outcome.panic "runtime error: slice bounds out of range [:12] with capacity"
      ∧ base64.DecodeString "AAAA" = Except.ok [0, 0, 0]
      ∧ decrypt gcmOpen exampleKey "AAAA"
          = Outcome.panic "runtime error: slice bounds out of range [:12] with capacity" := by
  refine ⟨by rfl, ?_, by rfl, ?_⟩
  · have hdec : base64.DecodeString "" = Except.ok [] := by rfl
    have hcap : base64.DecodedLen (stringBytes "").length = 0 := by rfl
    simp [decrypt, exampleKey_length, hdec, hcap]
  · have hdec : base64.DecodeString "AAAA" = Except.ok [0, 0, 0] := by rfl
    have hcap : base64.DecodedLen (stringBytes "AAAA").length = 3 := by rfl
    simp [decrypt, exampleKey_length, hdec, hcap]

end node

namespace components

theorem fmtHexBytes_length (bs : List Nat) : (fmtHexBytes bs).length = 2 * bs.length := by
  induction bs with
  | nil => rfl
  | cons b bs ih =>
    simp only [fmtHexBytes, List.flatMap_cons, List.length_append, List.length_cons,
      List.length_nil] at ih ⊢
    omega

theorem sha1_Sum_length (data : List Nat) : (sha1.Sum data).length = 20 := by
  simp [sha1.Sum, sha1.putUint32]

/-- C6: for every namespace and name, `wireguardInterfaceName` returns (the
slice is in range) the string "wg-" followed by the first 12 lowercase
hexadecimal digits of the SHA-1 digest of namespace, "-", name, and this
string has exactly 15 characters; the name is a function of its inputs. -/
theorem interfaceName_exact (clusterNamespace clusterName : String) :
    wireguardInterfaceName clusterNamespace clusterName
        = Outcome.ok ("wg-" ++ String.mk ((fmtHexBytes (sha1.Sum
            (stringBytes (clusterNamespace ++ "-" ++ clusterName)))).take 12))
      ∧ ("wg-" ++ String.mk ((fmtHexBytes (sha1.Sum
            (stringBytes (clusterNamespace ++ "-" ++ clusterName)))).take 12)).length = 15 := by
  have hlen : (fmtHexBytes (sha1.Sum
      (stringBytes (clusterNamespace ++ "-" ++ clusterName)))).length = 40 := by
    rw [fmtHexBytes_length, sha1_Sum_length]
  constructor
  · have hb : (0 : Nat) ≤ 15 ∧ 15 ≤ ("wg-".toList ++ fmtHexBytes (sha1.Sum
        (stringBytes (clusterNamespace ++ "-" ++ clusterName)))).length := by
      simp [hlen]
    simp only [wireguardInterfaceName, sliceString, hb, and_self, if_true, List.drop_zero]
    rfl
  · simp only [String.length_append, String.length_mk, List.length_take, hlen]
    decide

/-- C7: the namespaces and names ("a-b", "c") and ("a", "b-c") differ, yet
`wireguardInterfaceName` feeds the same bytes to the hash for both, so both
clusters get the interface name "wg-e088d9e3f737" without any hash
collision. -/
theorem interfaceName_input_collision :
    (("a-b", "c") : String × String) ≠ ("a", "b-c")
      ∧ stringBytes ("a-b" ++ "-" ++ "c") = stringBytes ("a" ++ "-" ++ "b-c")
      ∧ wireguardInterfaceName "a-b" "c" = Outcome.ok "wg-e088d9e3f737"
      ∧ wireguardInterfaceName "a" "b-c" = Outcome.ok "wg-e088d9e3f737" := by
  refine ⟨by decide, by rfl, by rfl, by rfl⟩

end components

/-! ## Properties of the join protocol -/

namespace node

/-- Ticks that fail or show a request not yet issued are skipped. -/
theorem wait_skips_pending (convert : NodeJoinRequestV1alpha1 → Except GoError NodeJoinRequest)
    (pre tail : List PollEvent) (hpre : ∀ ev ∈ pre, ev.pending = true) :
    waitForJoinRequestIssuedCondition convert (pre ++ tail)
      = waitForJoinRequestIssuedCondition convert tail := by
  induction pre with
  | nil => rfl
  | cons ev evs ih =>
    have hev := hpre ev (List.mem_cons_self _ _)
    have hrest : ∀ e ∈ evs, e.pending = true := fun e he => hpre e (List.mem_cons_of_mem _ he)
    cases ev with
    | timeout => simp [PollEvent.pending] at hev
    | tick fetched =>
      cases fetched with
      | error err => simpa [waitForJoinRequestIssuedCondition] using ih hrest
      | ok r =>
        simp only [PollEvent.pending, Bool.not_eq_true'] at hev
        simpa [waitForJoinRequestIssuedCondition, hev] using ih hrest

/-- C9 fails on the code: a first tick whose request reports the Issued
condition does not make the wait exit successfully when the conversion of
that request to the internal type fails; the wait then returns the error
"could not convert node join request" and no request. -/
theorem wait_conversion_failure :
    exampleIssued.HasCondition Issued = true
      ∧ waitForJoinRequestIssuedCondition
          (fun _ => Except.error (errors.New "could not decrypt symmetric key"))
          [PollEvent.tick (Except.error (errors.New "connection refused")),
           PollEvent.tick (Except.ok exampleIssued)]
        = some (Except.error (errors.New "could not convert node join request"))
      ∧ ¬ ∃ request, waitForJoinRequestIssuedCondition
          (fun _ => Except.error (errors.New "could not decrypt symmetric key"))
          [PollEvent.tick (Except.error (errors.New "connection refused")),
           PollEvent.tick (Except.ok exampleIssued)]
        = some (Except.ok request) := by
  refine ⟨by rfl, by rfl, ?_⟩
  rintro ⟨request, h⟩
  have h2 : waitForJoinRequestIssuedCondition
      (fun _ => Except.error (errors.New "could not decrypt symmetric key"))
      [PollEvent.tick (Except.error (errors.New "connection refused")),
       PollEvent.tick (Except.ok exampleIssued)]
      = some (Except.error (errors.New "could not convert node join request")) := by rfl
  rw [h2] at h
  cases h

/-- C9 as amended: when the rounds before it are ticks whose fetch failed or
whose request is not yet issued, `waitForJoinRequestIssuedCondition` skips
them all and (1) at the first tick whose request reports the Issued condition
it returns, whatever follows: that request converted to the internal type and
no error when the conversion succeeds, and the error "could not convert node
join request" and no request when the conversion fails; (2) at a timeout it
returns the error "timed out waiting for issued condition" and no request. -/
theorem wait_first_issued_or_timeout
    (convert : NodeJoinRequestV1alpha1 → Except GoError NodeJoinRequest)
    (pre : List PollEvent) (hpre : ∀ ev ∈ pre, ev.pending = true) :
    (∀ (issued : NodeJoinRequestV1alpha1) (rest : List PollEvent),
        issued.HasCondition Issued = true →
        waitForJoinRequestIssuedCondition convert
            (pre ++ PollEvent.tick (Except.ok issued) :: rest)
          = some (match convert issued with
              | Except.ok internal => Except.ok internal
              | Except.error _ =>
                Except.error (errors.New "could not convert node join request")))
      ∧ (∀ rest : List PollEvent,
          waitForJoinRequestIssuedCondition convert (pre ++ PollEvent.timeout :: rest)
            = some (Except.error (errors.New "timed out waiting for issued condition"))) := by
  constructor
  · intro issued rest hissued
    rw [wait_skips_pending convert pre _ hpre]
    cases hconv : convert issued <;>
      simp [waitForJoinRequestIssuedCondition, hissued, hconv]
  · intro rest
    rw [wait_skips_pending convert pre _ hpre]
    rfl

theorem wait_first_issued_or_timeout_witness :
    (∀ ev ∈ [PollEvent.tick (Except.error (errors.New "connection refused")),
          PollEvent.tick (Except.ok { exampleIssued with Conditions := [] })],
        ev.pending = true)
      ∧ waitForJoinRequestIssuedCondition (fun _ => Except.ok exampleRequest)
          ([PollEvent.tick (Except.error (errors.New "connection refused")),
            PollEvent.tick (Except.ok { exampleIssued with Conditions := [] })]
            ++ PollEvent.tick (Except.ok exampleIssued) :: [PollEvent.timeout])
          = some (Except.ok exampleRequest)
      ∧ waitForJoinRequestIssuedCondition
          (fun _ => Except.error (errors.New "could not decrypt symmetric key"))
          ([PollEvent.tick (Except.error (errors.New "connection refused")),
            PollEvent.tick (Except.ok { exampleIssued with Conditions := [] })]
            ++ PollEvent.tick (Except.ok exampleIssued) :: [PollEvent.timeout])
          = some (Except.error (errors.New "could not convert node join request"))
      ∧ waitForJoinRequestIssuedCondition (fun _ => Except.ok exampleRequest)
          ([PollEvent.tick (Except.error (errors.New "connection refused")),
            PollEvent.tick (Except.ok { exampleIssued with Conditions := [] })]
            ++ PollEvent.timeout :: [PollEvent.tick (Except.ok exampleIssued)])
          = some (Except.error (errors.New "timed out waiting for issued condition")) :=
  have hpre : ∀ ev ∈ [PollEvent.tick (Except.error (errors.New "connection refused")),
      PollEvent.tick (Except.ok { exampleIssued with Conditions := [] })],
      ev.pending = true := by
    intro ev hev
    simp only [List.mem_cons, List.mem_singleton, List.not_mem_nil, or_false] at hev
    rcases hev with rfl | rfl <;> rfl
  ⟨hpre,
    (wait_first_issued_or_timeout (fun _ => Except.ok exampleRequest) _ hpre).1
      exampleIssued [PollEvent.timeout] (by rfl),
    (wait_first_issued_or_timeout
      (fun _ => Except.error (errors.New "could not decrypt symmetric key")) _ hpre).1
      exampleIssued [PollEvent.timeout] (by rfl),
    (wait_first_issued_or_timeout (fun _ => Except.ok exampleRequest) _ hpre).2
      [PollEvent.tick (Except.ok exampleIssued)]⟩

/-- C10: `createJoinRequest` returns no error when the cluster API accepts the
request and when it answers that the request already exists, and returns the
error of the API unchanged otherwise; against an API that keeps the requests
by name, submitting the same request twice returns no error either time and
the second submission leaves the store as the first one left it. -/
theorem createJoinRequest_idempotent (constants : Constants)
    (post : NodeJoinRequestV1alpha1 → Option GoError)
    (apiServerEndpoint nodename symmetricKey containerRuntimeEndpoint
      imageServiceEndpoint : String) :
    (post (submittedRequest constants apiServerEndpoint nodename symmetricKey
          containerRuntimeEndpoint imageServiceEndpoint) = none →
        createJoinRequest constants post apiServerEndpoint nodename symmetricKey
          containerRuntimeEndpoint imageServiceEndpoint = none)
      ∧ (∀ err : GoError,
          post (submittedRequest constants apiServerEndpoint nodename symmetricKey
            containerRuntimeEndpoint imageServiceEndpoint) = some err →
          createJoinRequest constants post apiServerEndpoint nodename symmetricKey
            containerRuntimeEndpoint imageServiceEndpoint
            = if IsAlreadyExists err then none else some err)
      ∧ (∀ store : List NodeJoinRequestV1alpha1,
          createJoinRequest constants (fun r => (apiPost store r).1) apiServerEndpoint nodename
              symmetricKey containerRuntimeEndpoint imageServiceEndpoint = none
            ∧ createJoinRequest constants
                (fun r => (apiPost (apiPost store (submittedRequest constants apiServerEndpoint
                  nodename symmetricKey containerRuntimeEndpoint imageServiceEndpoint)).2 r).1)
                apiServerEndpoint nodename symmetricKey containerRuntimeEndpoint
                imageServiceEndpoint = none
            ∧ (apiPost (apiPost store (submittedRequest constants apiServerEndpoint nodename
                  symmetricKey containerRuntimeEndpoint imageServiceEndpoint)).2
                (submittedRequest constants apiServerEndpoint nodename symmetricKey
                  containerRuntimeEndpoint imageServiceEndpoint)).2
                = (apiPost store (submittedRequest constants apiServerEndpoint nodename
                  symmetricKey containerRuntimeEndpoint imageServiceEndpoint)).2) := by
  refine ⟨?_, ?_, ?_⟩
  · intro h
    simp only [submittedRequest] at h
    simp [createJoinRequest, h]
  · intro err h
    simp only [submittedRequest] at h
    cases hx : IsAlreadyExists err <;> simp [createJoinRequest, h, hx]
  · intro store
    by_cases hin : store.any (fun r => r.Name == nodename) = true
    · simp [createJoinRequest, apiPost, submittedRequest, hin, IsAlreadyExists]
    · simp only [Bool.not_eq_true] at hin
      have hin2 : (store ++ [submittedRequest constants apiServerEndpoint nodename symmetricKey
          containerRuntimeEndpoint imageServiceEndpoint]).any (fun r => r.Name == nodename)
          = true := by
        simp [submittedRequest]
      simp only [submittedRequest] at hin2
      simp [createJoinRequest, apiPost, submittedRequest, hin, hin2, IsAlreadyExists]

end node

namespace node

theorem createJoinRequest_idempotent_witness :
    createJoinRequest exampleConstants (fun r => (apiPost [] r).1) "https://cluster:6443"
        "node-1" "wrapped-key" "unix:///run/containerd/containerd.sock"
        "unix:///run/containerd/containerd.sock" = none
      ∧ createJoinRequest exampleConstants
          (fun r => (apiPost (apiPost [] (submittedRequest exampleConstants
            "https://cluster:6443" "node-1" "wrapped-key"
            "unix:///run/containerd/containerd.sock"
            "unix:///run/containerd/containerd.sock")).2 r).1)
          "https://cluster:6443" "node-1" "wrapped-key"
          "unix:///run/containerd/containerd.sock"
          "unix:///run/containerd/containerd.sock" = none
      ∧ (apiPost (apiPost [] (submittedRequest exampleConstants "https://cluster:6443"
            "node-1" "wrapped-key" "unix:///run/containerd/containerd.sock"
            "unix:///run/containerd/containerd.sock")).2
          (submittedRequest exampleConstants "https://cluster:6443" "node-1" "wrapped-key"
            "unix:///run/containerd/containerd.sock"
            "unix:///run/containerd/containerd.sock")).2
          = (apiPost [] (submittedRequest exampleConstants "https://cluster:6443" "node-1"
            "wrapped-key" "unix:///run/containerd/containerd.sock"
            "unix:///run/containerd/containerd.sock")).2 :=
  (createJoinRequest_idempotent exampleConstants (fun _ => none) "https://cluster:6443"
    "node-1" "wrapped-key" "unix:///run/containerd/containerd.sock"
    "unix:///run/containerd/containerd.sock").2.2 []

/-- In the example world, `Join` gets past the poll loop with the example key
and the request the conversion yields, having done nothing to the node. -/
theorem example_request (request : NodeJoinRequest) :
    Join.request (exampleEnv request) "node-1" "https://cluster:6443"
        "unix:///run/containerd/containerd.sock" "unix:///run/containerd/containerd.sock"
      = some (Except.ok (exampleKey, request), []) := by
  rfl

/-- When `readOrGenerateSymmetricKey` returns a key it has either done nothing
to the node (the key file was there) or made the config directory and written
that key to the key file. -/
theorem readOrGenerateSymmetricKey_effects (env : Env) (symmetricKey : String)
    (t : List Effect)
    (h : readOrGenerateSymmetricKey env [] = (Except.ok symmetricKey, t)) :
    t = [] ∨ t = [Effect.mkdirAll env.constants.OneInfraConfigDir,
      Effect.writeFile (env.constants.OneInfraConfigDir ++ "/" ++ "join.key") symmetricKey] := by
  unfold readOrGenerateSymmetricKey at h
  simp only [filepathJoin] at h
  repeat' split at h
  all_goals simp only [List.nil_append, Prod.mk.injEq, Except.ok.injEq] at h
  all_goals first
    | (cases h.1; done)
    | (obtain ⟨h1, h2⟩ := h
       subst h1
       subst h2
       first
         | (left; rfl)
         | (right; rfl))

/-- Up to the issued request `Join` does nothing to the node but obtain the
symmetric key. -/
theorem request_effects (env : Env) (nodename apiServerEndpoint containerRuntimeEndpoint
    imageServiceEndpoint symmetricKey : String) (request : NodeJoinRequest)
    (t : List Effect)
    (h : Join.request env nodename apiServerEndpoint containerRuntimeEndpoint
      imageServiceEndpoint = some (Except.ok (symmetricKey, request), t)) :
    t = [] ∨ t = [Effect.mkdirAll env.constants.OneInfraConfigDir,
      Effect.writeFile (env.constants.OneInfraConfigDir ++ "/" ++ "join.key") symmetricKey] := by
  unfold Join.request at h
  cases hc : env.createClient with
  | some err =>
    simp only [hc, Option.some.injEq, Prod.mk.injEq] at h
    exact absurd h.1 (by simp)
  | none =>
    rcases hk : readOrGenerateSymmetricKey env [] with ⟨k, t1⟩
    simp only [hc, hk] at h
    cases k with
    | error e =>
      simp only [Option.some.injEq, Prod.mk.injEq] at h
      exact absurd h.1 (by simp)
    | ok key =>
      have hkey := readOrGenerateSymmetricKey_effects env key t1 hk
      simp only at h
      repeat' split at h
      all_goals first
        | (cases h; done)
        | (simp only [Option.some.injEq, Prod.mk.injEq, Except.ok.injEq] at h
           obtain ⟨⟨h1, _⟩, h2⟩ := h
           subst h1
           subst h2
           exact hkey)

/-- C4 fails on the code: with a kubeConfig that decrypts and a kubeletConfig
that does not, `Join` returns the decryption error after it has written the
kubeconfig file. -/
theorem join_applies_partial_config :
    decrypt exampleOpen exampleKey exampleRequest.KubeConfig = Outcome.ok "kubeconfig"
      ∧ decrypt exampleOpen exampleKey "!" = Outcome.error (base64.CorruptInputError 0)
      ∧ Join (exampleEnv { exampleRequest with KubeletConfig := "!" }) "node-1"
          "https://cluster:6443" "unix:///run/containerd/containerd.sock"
          "unix:///run/containerd/containerd.sock"
        = some (Outcome.error (base64.CorruptInputError 0),
            [Effect.mkdirAll "/etc/oneinfra",
             Effect.writeFile "/etc/oneinfra/kubelet.conf" "kubeconfig"]) := by
  refine ⟨by rfl, by rfl, by rfl⟩

/-- C4 as amended: for an issued request obtained by `Join`, where `t` are the
effects performed up to then, (1) `t` is empty, or it is making the config
directory and writing the symmetric key to the key file `join.key`; (2) if kubeConfig fails to decrypt with
an error, `Join` returns that error and `t` is all it has done: no file other
than the key file is written, the kubelet is not installed and its service
not started; (3) if kubeConfig decrypts and is written, and kubeletConfig
fails to decrypt with an error, `Join` returns that error and has done, after
`t`, exactly this: made the config directory and written the kubeconfig
file; the kubelet config file is not written, the kubelet is not installed
and its service not started. -/
theorem join_decrypt_failure (env : Env) (nodename apiServerEndpoint containerRuntimeEndpoint
    imageServiceEndpoint symmetricKey : String) (request : NodeJoinRequest) (t : List Effect)
    (hissued : Join.request env nodename apiServerEndpoint containerRuntimeEndpoint
      imageServiceEndpoint = some (Except.ok (symmetricKey, request), t)) :
    (t = [] ∨ t = [Effect.mkdirAll env.constants.OneInfraConfigDir,
        Effect.writeFile (env.constants.OneInfraConfigDir ++ "/" ++ "join.key") symmetricKey])
      ∧ (∀ err : GoError,
          decrypt env.gcmOpen symmetricKey request.KubeConfig = Outcome.error err →
          Join env nodename apiServerEndpoint containerRuntimeEndpoint imageServiceEndpoint
            = some (Outcome.error err, t))
      ∧ (∀ (kubeConfig : String) (err : GoError),
          decrypt env.gcmOpen symmetricKey request.KubeConfig = Outcome.ok kubeConfig →
          env.mkdirAll env.constants.OneInfraConfigDir = none →
          env.writeFile env.constants.KubeletKubeConfigPath kubeConfig = none →
          decrypt env.gcmOpen symmetricKey request.KubeletConfig = Outcome.error err →
          Join env nodename apiServerEndpoint containerRuntimeEndpoint imageServiceEndpoint
            = some (Outcome.error err,
                t ++ [Effect.mkdirAll env.constants.OneInfraConfigDir,
                  Effect.writeFile env.constants.KubeletKubeConfigPath kubeConfig])) := by
  refine ⟨?_, ?_, ?_⟩
  · exact request_effects env nodename apiServerEndpoint containerRuntimeEndpoint
      imageServiceEndpoint symmetricKey request t hissued
  · intro err hdec
    simp [Join, hissued, Join.configure, writeKubeConfig, decryptAndWrite, hdec]
  · intro kubeConfig err hdec hmk hwr hdec2
    simp [Join, hissued, Join.configure, writeKubeConfig, writeKubeletConfig, decryptAndWrite,
      hdec, hmk, hwr, hdec2]

/-- The key a fresh node generates in the example world. -/
theorem fresh_request (request : NodeJoinRequest) :
    Join.request (freshEnv request) "node-1" "https://cluster:6443"
        "unix:///run/containerd/containerd.sock" "unix:///run/containerd/containerd.sock"
      = some (Except.ok ("00000000000000000000000000000000", request),
          [Effect.mkdirAll "/etc/oneinfra",
           Effect.writeFile "/etc/oneinfra/join.key" "00000000000000000000000000000000"]) := by
  rfl

theorem join_decrypt_failure_witness :
    Join.request (freshEnv { exampleRequest with KubeConfig := "!" }) "node-1"
        "https://cluster:6443" "unix:///run/containerd/containerd.sock"
        "unix:///run/containerd/containerd.sock"
      = some (Except.ok ("00000000000000000000000000000000",
            { exampleRequest with KubeConfig := "!" }),
          [Effect.mkdirAll "/etc/oneinfra",
           Effect.writeFile "/etc/oneinfra/join.key" "00000000000000000000000000000000"])
    ∧ ([Effect.mkdirAll "/etc/oneinfra",
          Effect.writeFile "/etc/oneinfra/join.key" "00000000000000000000000000000000"] = []
        ∨ [Effect.mkdirAll "/etc/oneinfra",
          Effect.writeFile "/etc/oneinfra/join.key" "00000000000000000000000000000000"]
          = [Effect.mkdirAll
              (freshEnv { exampleRequest with KubeConfig := "!" }).constants.OneInfraConfigDir,
            Effect.writeFile
              ((freshEnv { exampleRequest with KubeConfig := "!" }).constants.OneInfraConfigDir
                ++ "/" ++ "join.key") "00000000000000000000000000000000"])
    ∧ Join (freshEnv { exampleRequest with KubeConfig := "!" }) "node-1"
        "https://cluster:6443" "unix:///run/containerd/containerd.sock"
        "unix:///run/containerd/containerd.sock"
      = some (Outcome.error (base64.CorruptInputError 0),
          [Effect.mkdirAll "/etc/oneinfra",
           Effect.writeFile "/etc/oneinfra/join.key" "00000000000000000000000000000000"])
    ∧ Join (freshEnv { exampleRequest with KubeletConfig := "!" }) "node-1"
        "https://cluster:6443" "unix:///run/containerd/containerd.sock"
        "unix:///run/containerd/containerd.sock"
      = some (Outcome.error (base64.CorruptInputError 0),
          [Effect.mkdirAll "/etc/oneinfra",
           Effect.writeFile "/etc/oneinfra/join.key" "00000000000000000000000000000000"]
          ++ [Effect.mkdirAll "/etc/oneinfra",
            Effect.writeFile "/etc/oneinfra/kubelet.conf" "kubeconfig"])
    ∧ Join (exampleEnv { exampleRequest with KubeConfig := "!" }) "node-1"
        "https://cluster:6443" "unix:///run/containerd/containerd.sock"
        "unix:///run/containerd/containerd.sock"
      = some (Outcome.error (base64.CorruptInputError 0), []) :=
  ⟨fresh_request _,
    (join_decrypt_failure (freshEnv { exampleRequest with KubeConfig := "!" }) "node-1"
      "https://cluster:6443" "unix:///run/containerd/containerd.sock"
      "unix:///run/containerd/containerd.sock" "00000000000000000000000000000000"
      { exampleRequest with KubeConfig := "!" } _ (fresh_request _)).1,
    (join_decrypt_failure (freshEnv { exampleRequest with KubeConfig := "!" }) "node-1"
      "https://cluster:6443" "unix:///run/containerd/containerd.sock"
      "unix:///run/containerd/containerd.sock" "00000000000000000000000000000000"
      { exampleRequest with KubeConfig := "!" } _ (fresh_request _)).2.1
      (base64.CorruptInputError 0) (by rfl),
    (join_decrypt_failure (freshEnv { exampleRequest with KubeletConfig := "!" }) "node-1"
      "https://cluster:6443" "unix:///run/containerd/containerd.sock"
      "unix:///run/containerd/containerd.sock" "00000000000000000000000000000000"
      { exampleRequest with KubeletConfig := "!" } _ (fresh_request _)).2.2
      "kubeconfig" (base64.CorruptInputError 0) (by rfl) rfl rfl (by rfl),
    (join_decrypt_failure (exampleEnv { exampleRequest with KubeConfig := "!" }) "node-1"
      "https://cluster:6443" "unix:///run/containerd/containerd.sock"
      "unix:///run/containerd/containerd.sock" exampleKey
      { exampleRequest with KubeConfig := "!" } [] (example_request _)).2.1
      (base64.CorruptInputError 0) (by rfl)⟩

end node

namespace node

theorem quantumBytes_length (q : List Nat) (hq : q.length ≤ 4) :
    (base64.quantumBytes q).length = q.length - 1 := by
  simp only [base64.quantumBytes, List.length_take, List.length_cons, List.length_nil]
  omega

/-- The decoder never yields more than six bits per input character. -/
theorem decodeLoop_length (cs : List Char) :
    ∀ (q : List Nat) (si : Nat) (out data : List Nat), q.length ≤ 3 →
      base64.decodeLoop cs q si out = Except.ok data →
      data.length * 8 ≤ out.length * 8 + 6 * (q.length + cs.length) := by
  induction cs with
  | nil =>
    intro q si out data hq h
    unfold base64.decodeLoop at h
    split at h
    · cases h
      omega
    · split at h
      · cases h
      · cases h
        rw [List.length_append, quantumBytes_length q (by omega)]
        simp only [List.length_nil]
        omega
  | cons c cs ih =>
    intro q si out data hq h
    unfold base64.decodeLoop at h
    split at h
    · split at h
      · rename_i hq3
        have := ih _ _ _ _ (by simp) h
        rw [List.length_append, quantumBytes_length _ (by simp [hq3])] at this
        simp only [List.length_append, List.length_cons, List.length_nil] at this ⊢
        omega
      · rename_i v hv hq3
        have hq2 : (q ++ [v]).length ≤ 3 := by
          simp only [List.length_append, List.length_cons, List.length_nil]
          omega
        have := ih _ _ _ _ hq2 h
        simp only [List.length_append, List.length_cons, List.length_nil] at this ⊢
        omega
    · split at h
      · have := ih _ _ _ _ hq h
        simp only [List.length_cons] at this ⊢
        omega
      · cases h

theorem stringBytes_length (s : String) : s.toList.length ≤ (stringBytes s).length := by
  unfold stringBytes
  induction s.toList with
  | nil => simp
  | cons c cs ih =>
    have hc : 0 < c.utf8Size := c.utf8Size_pos
    simp only [List.flatMap_cons, List.length_append, List.length_map,
      String.length_utf8EncodeChar, List.length_cons]
    omega

/-- The decoded bytes fit the buffer `DecodeString` allocates. -/
theorem DecodeString_length (s : String) (data : List Nat)
    (h : base64.DecodeString s = Except.ok data) :
    data.length ≤ base64.DecodedLen (stringBytes s).length := by
  have h1 := decodeLoop_length s.toList [] 0 [] data (by simp) h
  have h2 := stringBytes_length s
  simp only [List.length_nil] at h1
  unfold base64.DecodedLen
  omega

/-- With a valid AES key, `decrypt` panics exactly when the input is valid
base64 that decodes to fewer bytes than the nonce size; on every other input
it returns a plaintext or an error. -/
theorem decrypt_panics_iff (gcmOpen : GCMOpen) (symmetricKey base64Data : String)
    (hkey : (stringBytes symmetricKey).length = 16 ∨ (stringBytes symmetricKey).length = 24
      ∨ (stringBytes symmetricKey).length = 32) :
    (∃ m, decrypt gcmOpen symmetricKey base64Data = Outcome.panic m)
      ↔ ∃ data, base64.DecodeString base64Data = Except.ok data ∧ data.length < 12 := by
  constructor
  · rintro ⟨m, hm⟩
    have hk : ¬ ((stringBytes symmetricKey).length ≠ 16
        ∧ (stringBytes symmetricKey).length ≠ 24
        ∧ (stringBytes symmetricKey).length ≠ 32) := by
      omega
    simp only [decrypt, hk, if_false] at hm
    cases hdec : base64.DecodeString base64Data with
    | error err => simp [hdec] at hm
    | ok data =>
      refine ⟨data, rfl, ?_⟩
      have hlen := DecodeString_length base64Data data hdec
      by_contra hge
      have h1 : ¬ 12 > base64.DecodedLen (stringBytes base64Data).length := by omega
      have h2 : ¬ 12 > data.length := by omega
      simp only [hdec, h1, h2, if_false] at hm
      cases hopen : gcmOpen (stringBytes symmetricKey) (List.take 12 data) (List.drop 12 data)
        <;> simp [hopen] at hm
  · rintro ⟨data, hdec, hshort⟩
    exact decrypt_panics_of_short gcmOpen symmetricKey base64Data data hkey hdec hshort

end node

/-! ## Properties of the reconciliation -/

namespace components

/-- The slice in `wireguardInterfaceName` is always in range. -/
theorem wireguardInterfaceName_ok (clusterNamespace clusterName : String) :
    wireguardInterfaceName clusterNamespace clusterName
      = Outcome.ok (interfaceName clusterNamespace clusterName) := by
  have hlen : (fmtHexBytes (sha1.Sum
      (stringBytes (clusterNamespace ++ "-" ++ clusterName)))).length = 40 := by
    rw [fmtHexBytes_length, sha1_Sum_length]
  have hb : (0 : Nat) ≤ 15 ∧ 15 ≤ ("wg-".toList ++ fmtHexBytes (sha1.Sum
      (stringBytes (clusterNamespace ++ "-" ++ clusterName)))).length := by
    simp [hlen]
  simp only [interfaceName, wireguardInterfaceName, sliceString, hb, and_self, if_true]

theorem wireguardConfigGuestFile_ok {σ : Type} (constants : Constants)
    (inquirer : ReconcilerInquirer σ) :
    wireguardConfigGuestFile constants inquirer.Cluster.Namespace inquirer.Cluster.Name
        inquirer.ComponentName
      = Outcome.ok (guestFile constants inquirer) := by
  simp only [wireguardConfigGuestFile, wireguardInterfaceName_ok, guestFile]

theorem mapLiteral_single (k v : String) : mapLiteral [(k, v)] = [(k, v)] := by
  simp [mapLiteral]

/-- C11: on every hypervisor (any state machine), `reconcileWireguard` makes
its calls in the order EnsureImage, config derivation (which requests the
port), UploadFiles, the two debug EnsurePod calls, RunAndWaitForPod with
`wg-quick up` on the quick config, RunAndWaitForPod with `wg syncconf` on the
full config. It stops at the first of the required steps that returns an
error: it returns exactly that error and the calls made are the steps up to
and including that one, each made once, also when the failing step is the
last one (`wg syncconf`); when no required step fails it returns no error.
The errors the two debug EnsurePod calls
return (`r4`, `r5`) do not occur in the result, and replacing EnsurePod by any
call that leaves the same states leaves the result unchanged. -/
theorem reconcile_aborts_at_first_error {σ : Type} (constants : Constants)
    (inquirer : ReconcilerInquirer σ) (s0 s1 s2 s3 s4 s5 s6 s7 : σ)
    (r1 r3 r4 r5 r6 r7 cfgErr : Option GoError) (port : Except GoError Int)
    (quick full : String)
    (h1 : inquirer.Hypervisor.EnsureImage constants.WireguardImage s0 = (r1, s1))
    (h2 : inquirer.RequestPort WireguardHostPortName s1 = (port, s2))
    (hcfg : ControlPlaneIngress.wireguardConfiguration port inquirer.Cluster
      = (quick, full, cfgErr))
    (h3 : inquirer.Hypervisor.UploadFiles inquirer.Cluster.Namespace inquirer.Cluster.Name
      inquirer.ComponentName (uploadedFiles constants inquirer quick full) s2 = (r3, s3))
    (h4 : inquirer.Hypervisor.EnsurePod "" "" "wireguard-debug-quick"
      (debugPodOf constants inquirer "wireguard-debug-quick" (quickHostFile constants inquirer))
      s3 = (r4, s4))
    (h5 : inquirer.Hypervisor.EnsurePod "" "" "wireguard-debug"
      (debugPodOf constants inquirer "wireguard-debug" (fullHostFile constants inquirer))
      s4 = (r5, s5))
    (h6 : inquirer.Hypervisor.RunAndWaitForPod inquirer.Cluster.Namespace inquirer.Cluster.Name
      inquirer.ComponentName (quickUpPod constants inquirer) s5 = (r6, s6))
    (h7 : inquirer.Hypervisor.RunAndWaitForPod inquirer.Cluster.Namespace inquirer.Cluster.Name
      inquirer.ComponentName (syncconfPod constants inquirer) s6 = (r7, s7)) :
    ControlPlaneIngress.reconcileWireguard constants inquirer s0
        = (match r1, cfgErr, r3, r6, r7 with
          | some err, _, _, _, _ =>
            (Outcome.error err, s1, (reconcileCalls constants inquirer quick full).take 1)
          | none, some err, _, _, _ =>
            (Outcome.error err, s2, (reconcileCalls constants inquirer quick full).take 2)
          | none, none, some err, _, _ =>
            (Outcome.error err, s3, (reconcileCalls constants inquirer quick full).take 3)
          | none, none, none, some err, _ =>
            (Outcome.error err, s6, (reconcileCalls constants inquirer quick full).take 6)
          | none, none, none, none, some err =>
            (Outcome.error err, s7, reconcileCalls constants inquirer quick full)
          | none, none, none, none, none =>
            (Outcome.ok (), s7, reconcileCalls constants inquirer quick full))
      ∧ ∀ ensurePod : String → String → String → pod.Pod → σ → Option GoError × σ,
          (∀ a b c p s, (ensurePod a b c p s).2 = (inquirer.Hypervisor.EnsurePod a b c p s).2) →
          ControlPlaneIngress.reconcileWireguard constants
              { inquirer with Hypervisor := { inquirer.Hypervisor with EnsurePod := ensurePod } }
              s0
            = ControlPlaneIngress.reconcileWireguard constants inquirer s0 := by
  constructor
  · have h4s : (inquirer.Hypervisor.EnsurePod "" "" "wireguard-debug-quick"
        (debugPodOf constants inquirer "wireguard-debug-quick"
          (quickHostFile constants inquirer)) s3).2 = s4 := by
      rw [h4]
    have h5s : (inquirer.Hypervisor.EnsurePod "" "" "wireguard-debug"
        (debugPodOf constants inquirer "wireguard-debug" (fullHostFile constants inquirer))
        s4).2 = s5 := by
      rw [h5]
    simp only [uploadedFiles, quickHostFile, fullHostFile, debugPodOf, quickUpPod, syncconfPod,
      wireguardPodOf] at h3 h4s h5s h6 h7
    cases r1 with
    | some err => simp [ControlPlaneIngress.reconcileWireguard, h1, reconcileCalls]
    | none =>
      cases cfgErr with
      | some err => simp [ControlPlaneIngress.reconcileWireguard, h1, h2, hcfg, reconcileCalls]
      | none =>
        cases r3 with
        | some err =>
          simp [ControlPlaneIngress.reconcileWireguard, h1, h2, hcfg, h3, reconcileCalls,
            wireguardQuickConfigHostFile, wireguardConfigHostFile, uploadedFiles,
            quickHostFile, fullHostFile]
        | none =>
          cases r6 with
          | some err =>
            simp [ControlPlaneIngress.reconcileWireguard, h1, h2, hcfg, h3, h4s, h5s, h6,
              reconcileCalls, wireguardQuickConfigHostFile, wireguardConfigHostFile,
              uploadedFiles, quickHostFile, fullHostFile, wireguardConfigGuestFile_ok,
              wireguardInterfaceName_ok, mapLiteral_single, pod.NewPod, debugPodOf,
              quickUpPod, wireguardPodOf]
          | none =>
            cases r7 <;>
              simp [ControlPlaneIngress.reconcileWireguard, h1, h2, hcfg, h3, h4s, h5s, h6, h7,
                reconcileCalls, wireguardQuickConfigHostFile, wireguardConfigHostFile,
                uploadedFiles, quickHostFile, fullHostFile, wireguardConfigGuestFile_ok,
                wireguardInterfaceName_ok, mapLiteral_single, pod.NewPod, debugPodOf,
                quickUpPod, syncconfPod, wireguardPodOf]
  · intro ensurePod hsame
    simp only [ControlPlaneIngress.reconcileWireguard, hsame]

theorem example_configuration (failing : Nat) :
    ControlPlaneIngress.wireguardConfiguration (Except.ok 51820) (exampleInquirer failing).Cluster
      = (exampleQuick, exampleFull, none) := by
  rfl

theorem reconcile_aborts_at_first_error_witness :
    ((exampleInquirer 99).Hypervisor.EnsureImage exampleConstants.WireguardImage 0 = (none, 1)
      ∧ (exampleInquirer 99).RequestPort WireguardHostPortName 1 = (Except.ok 51820, 2)
      ∧ ControlPlaneIngress.wireguardConfiguration (Except.ok 51820) (exampleInquirer 99).Cluster
          = (exampleQuick, exampleFull, none)
      ∧ (exampleInquirer 99).Hypervisor.EnsurePod "" "" "wireguard-debug-quick"
          (debugPodOf exampleConstants (exampleInquirer 99) "wireguard-debug-quick"
            (quickHostFile exampleConstants (exampleInquirer 99))) 3
          = (some (errors.New "pod exists"), 4)
      ∧ (exampleInquirer 99).Hypervisor.RunAndWaitForPod (exampleInquirer 99).Cluster.Namespace
          (exampleInquirer 99).Cluster.Name (exampleInquirer 99).ComponentName
          (syncconfPod exampleConstants (exampleInquirer 99)) 6 = (none, 7))
      ∧ ControlPlaneIngress.reconcileWireguard exampleConstants (exampleInquirer 99) 0
          = (Outcome.ok (), 7,
              reconcileCalls exampleConstants (exampleInquirer 99) exampleQuick exampleFull)
      ∧ ControlPlaneIngress.reconcileWireguard exampleConstants (exampleInquirer 2) 0
          = (Outcome.error (errors.New "upload failed"), 3,
              (reconcileCalls exampleConstants (exampleInquirer 2) exampleQuick
                exampleFull).take 3)
      ∧ ControlPlaneIngress.reconcileWireguard exampleConstants (exampleInquirer 5) 0
          = (Outcome.error (errors.New "pod failed"), 6,
              (reconcileCalls exampleConstants (exampleInquirer 5) exampleQuick
                exampleFull).take 6)
      ∧ ControlPlaneIngress.reconcileWireguard exampleConstants (exampleInquirer 6) 0
          = (Outcome.error (errors.New "pod failed"), 7,
              reconcileCalls exampleConstants (exampleInquirer 6) exampleQuick exampleFull)
      ∧ ControlPlaneIngress.reconcileWireguard exampleConstants (exampleInquirer 0) 0
          = (Outcome.error (errors.New "image pull failed"), 1,
              (reconcileCalls exampleConstants (exampleInquirer 0) exampleQuick
                exampleFull).take 1) :=
  ⟨⟨rfl, rfl, example_configuration 99, rfl, rfl⟩,
    (reconcile_aborts_at_first_error exampleConstants (exampleInquirer 99) 0 1 2 3 4 5 6 7
      none none (some (errors.New "pod exists")) (some (errors.New "pod exists")) none none
      none (Except.ok 51820) exampleQuick exampleFull rfl rfl (example_configuration 99)
      rfl rfl rfl rfl rfl).1,
    (reconcile_aborts_at_first_error exampleConstants (exampleInquirer 2) 0 1 2 3 4 5 6 7
      none (some (errors.New "upload failed")) (some (errors.New "pod exists"))
      (some (errors.New "pod exists")) none none none (Except.ok 51820) exampleQuick
      exampleFull rfl rfl (example_configuration 2) rfl rfl rfl rfl rfl).1,
    (reconcile_aborts_at_first_error exampleConstants (exampleInquirer 5) 0 1 2 3 4 5 6 7
      none none (some (errors.New "pod exists")) (some (errors.New "pod exists"))
      (some (errors.New "pod failed")) none none (Except.ok 51820) exampleQuick exampleFull
      rfl rfl (example_configuration 5) rfl rfl rfl rfl rfl).1,
    (reconcile_aborts_at_first_error exampleConstants (exampleInquirer 6) 0 1 2 3 4 5 6 7
      none none (some (errors.New "pod exists")) (some (errors.New "pod exists")) none
      (some (errors.New "pod failed")) none (Except.ok 51820) exampleQuick exampleFull
      rfl rfl (example_configuration 6) rfl rfl rfl rfl rfl).1,
    (reconcile_aborts_at_first_error exampleConstants (exampleInquirer 0) 0 1 2 3 4 5 6 7
      (some (errors.New "image pull failed")) none (some (errors.New "pod exists"))
      (some (errors.New "pod exists")) none none none (Except.ok 51820) exampleQuick
      exampleFull rfl rfl (example_configuration 0) rfl rfl rfl rfl rfl).1⟩

end components
